import Mathlib

/-!
A verification development for a Sudoku solver (`solution.py`).

The solver works on a candidate state: a Python dict mapping each of the 81
box labels `A1 .. I9` (row-major) to a string of candidate digit characters.
We model that dict positionally: a state is a `List (List Char)` whose entry
`9*r + c` is the value string of the box in row `r`, column `c`.  Python dicts
preserve insertion order and every state in the program is created from the
fixed `board.boxes` order, so every iteration over `values` in the source is
an iteration in this positional order.

Strings are modelled as `List Char`; `str.replace(old, '')` is `pyReplace`;
Python's stable `sorted` on strings is an insertion sort by the lexicographic
order on `List Char`.  The board topology (`SudokuBoard.__init__`) includes
the two diagonal units, matching the source.
-/

set_option maxRecDepth 100000
set_option maxHeartbeats 2000000

namespace Sudoku

/-- One candidate value string, e.g. `'47'` as `['4','7']`. -/
abbrev Value := List Char

/-- A candidate state: the dict `{box: value}` over the 81 fixed box labels,
modelled positionally in row-major box order. -/
abbrev Values := List Value

/-- The full candidate string `'123456789'`. -/
def nine : Value := ['1', '2', '3', '4', '5', '6', '7', '8', '9']

/-- `SudokuBoard.cross` on row/column index lists: box indices `9*r + c`. -/
def cross (rs cs : List Nat) : List Nat :=
  rs.flatMap (fun r => cs.map (fun c => 9 * r + c))

/-- The nine row/column indices `0..8`. -/
def idx9 : List Nat := [0, 1, 2, 3, 4, 5, 6, 7, 8]

/-- `board.row_units`. -/
def row_units : List (List Nat) := idx9.map (fun r => cross [r] idx9)

/-- `board.column_units`. -/
def column_units : List (List Nat) := idx9.map (fun c => cross idx9 [c])

/-- `board.square_units` (outer loop over row bands, inner over column bands). -/
def square_units : List (List Nat) :=
  [[0, 1, 2], [3, 4, 5], [6, 7, 8]].flatMap
    (fun rs => [[0, 1, 2], [3, 4, 5], [6, 7, 8]].map (fun cs => cross rs cs))

/-- `board.diagonal_units`: main diagonal and anti-diagonal. -/
def diagonal_units : List (List Nat) :=
  [idx9.map (fun i => 9 * i + i), idx9.map (fun i => 9 * i + (8 - i))]

/-- `board.units`: rows, then columns, then squares, then the two diagonals. -/
def units : List (List Nat) := row_units ++ column_units ++ square_units ++ diagonal_units

/-- `board.unit_peers_map`: for each box, for each unit containing it, the
unit's members other than the box, in unit order.  `SudokuBoard.__init__`
computes this dict once and stores it; the stored table is the literal below,
and `unit_peers_map_eq` proves it equal to the construction
`{b: [[p for p in u if p != b] for u in units if b in u] for b in boxes}`. -/
def unit_peers_map : List (List (List Nat)) :=
  [[[1, 2, 3, 4, 5, 6, 7, 8], [9, 18, 27, 36, 45, 54, 63, 72], [1, 2, 9, 10, 11, 18, 19, 20], [10, 20, 30, 40, 50, 60, 70, 80]], [[0, 2, 3, 4, 5, 6, 7, 8], [10, 19, 28, 37, 46, 55, 64, 73], [0, 2, 9, 10, 11, 18, 19, 20]], [[0, 1, 3, 4, 5, 6, 7, 8], [11, 20, 29, 38, 47, 56, 65, 74], [0, 1, 9, 10, 11, 18, 19, 20]], [[0, 1, 2, 4, 5, 6, 7, 8], [12, 21, 30, 39, 48, 57, 66, 75], [4, 5, 12, 13, 14, 21, 22, 23]], [[0, 1, 2, 3, 5, 6, 7, 8], [13, 22, 31, 40, 49, 58, 67, 76], [3, 5, 12, 13, 14, 21, 22, 23]], [[0, 1, 2, 3, 4, 6, 7, 8], [14, 23, 32, 41, 50, 59, 68, 77], [3, 4, 12, 13, 14, 21, 22, 23]], [[0, 1, 2, 3, 4, 5, 7, 8], [15, 24, 33, 42, 51, 60, 69, 78], [7, 8, 15, 16, 17, 24, 25, 26]], [[0, 1, 2, 3, 4, 5, 6, 8], [16, 25, 34, 43, 52, 61, 70, 79], [6, 8, 15, 16, 17, 24, 25, 26]], [[0, 1, 2, 3, 4, 5, 6, 7], [17, 26, 35, 44, 53, 62, 71, 80], [6, 7, 15, 16, 17, 24, 25, 26], [16, 24, 32, 40, 48, 56, 64, 72]], [[10, 11, 12, 13, 14, 15, 16, 17], [0, 18, 27, 36, 45, 54, 63, 72], [0, 1, 2, 10, 11, 18, 19, 20]], [[9, 11, 12, 13, 14, 15, 16, 17], [1, 19, 28, 37, 46, 55, 64, 73], [0, 1, 2, 9, 11, 18, 19, 20], [0, 20, 30, 40, 50, 60, 70, 80]], [[9, 10, 12, 13, 14, 15, 16, 17], [2, 20, 29, 38, 47, 56, 65, 74], [0, 1, 2, 9, 10, 18, 19, 20]], [[9, 10, 11, 13, 14, 15, 16, 17], [3, 21, 30, 39, 48, 57, 66, 75], [3, 4, 5, 13, 14, 21, 22, 23]], [[9, 10, 11, 12, 14, 15, 16, 17], [4, 22, 31, 40, 49, 58, 67, 76], [3, 4, 5, 12, 14, 21, 22, 23]], [[9, 10, 11, 12, 13, 15, 16, 17], [5, 23, 32, 41, 50, 59, 68, 77], [3, 4, 5, 12, 13, 21, 22, 23]], [[9, 10, 11, 12, 13, 14, 16, 17], [6, 24, 33, 42, 51, 60, 69, 78], [6, 7, 8, 16, 17, 24, 25, 26]], [[9, 10, 11, 12, 13, 14, 15, 17], [7, 25, 34, 43, 52, 61, 70, 79], [6, 7, 8, 15, 17, 24, 25, 26], [8, 24, 32, 40, 48, 56, 64, 72]], [[9, 10, 11, 12, 13, 14, 15, 16], [8, 26, 35, 44, 53, 62, 71, 80], [6, 7, 8, 15, 16, 24, 25, 26]], [[19, 20, 21, 22, 23, 24, 25, 26], [0, 9, 27, 36, 45, 54, 63, 72], [0, 1, 2, 9, 10, 11, 19, 20]], [[18, 20, 21, 22, 23, 24, 25, 26], [1, 10, 28, 37, 46, 55, 64, 73], [0, 1, 2, 9, 10, 11, 18, 20]], [[18, 19, 21, 22, 23, 24, 25, 26], [2, 11, 29, 38, 47, 56, 65, 74], [0, 1, 2, 9, 10, 11, 18, 19], [0, 10, 30, 40, 50, 60, 70, 80]], [[18, 19, 20, 22, 23, 24, 25, 26], [3, 12, 30, 39, 48, 57, 66, 75], [3, 4, 5, 12, 13, 14, 22, 23]], [[18, 19, 20, 21, 23, 24, 25, 26], [4, 13, 31, 40, 49, 58, 67, 76], [3, 4, 5, 12, 13, 14, 21, 23]], [[18, 19, 20, 21, 22, 24, 25, 26], [5, 14, 32, 41, 50, 59, 68, 77], [3, 4, 5, 12, 13, 14, 21, 22]], [[18, 19, 20, 21, 22, 23, 25, 26], [6, 15, 33, 42, 51, 60, 69, 78], [6, 7, 8, 15, 16, 17, 25, 26], [8, 16, 32, 40, 48, 56, 64, 72]], [[18, 19, 20, 21, 22, 23, 24, 26], [7, 16, 34, 43, 52, 61, 70, 79], [6, 7, 8, 15, 16, 17, 24, 26]], [[18, 19, 20, 21, 22, 23, 24, 25], [8, 17, 35, 44, 53, 62, 71, 80], [6, 7, 8, 15, 16, 17, 24, 25]], [[28, 29, 30, 31, 32, 33, 34, 35], [0, 9, 18, 36, 45, 54, 63, 72], [28, 29, 36, 37, 38, 45, 46, 47]], [[27, 29, 30, 31, 32, 33, 34, 35], [1, 10, 19, 37, 46, 55, 64, 73], [27, 29, 36, 37, 38, 45, 46, 47]], [[27, 28, 30, 31, 32, 33, 34, 35], [2, 11, 20, 38, 47, 56, 65, 74], [27, 28, 36, 37, 38, 45, 46, 47]], [[27, 28, 29, 31, 32, 33, 34, 35], [3, 12, 21, 39, 48, 57, 66, 75], [31, 32, 39, 40, 41, 48, 49, 50], [0, 10, 20, 40, 50, 60, 70, 80]], [[27, 28, 29, 30, 32, 33, 34, 35], [4, 13, 22, 40, 49, 58, 67, 76], [30, 32, 39, 40, 41, 48, 49, 50]], [[27, 28, 29, 30, 31, 33, 34, 35], [5, 14, 23, 41, 50, 59, 68, 77], [30, 31, 39, 40, 41, 48, 49, 50], [8, 16, 24, 40, 48, 56, 64, 72]], [[27, 28, 29, 30, 31, 32, 34, 35], [6, 15, 24, 42, 51, 60, 69, 78], [34, 35, 42, 43, 44, 51, 52, 53]], [[27, 28, 29, 30, 31, 32, 33, 35], [7, 16, 25, 43, 52, 61, 70, 79], [33, 35, 42, 43, 44, 51, 52, 53]], [[27, 28, 29, 30, 31, 32, 33, 34], [8, 17, 26, 44, 53, 62, 71, 80], [33, 34, 42, 43, 44, 51, 52, 53]], [[37, 38, 39, 40, 41, 42, 43, 44], [0, 9, 18, 27, 45, 54, 63, 72], [27, 28, 29, 37, 38, 45, 46, 47]], [[36, 38, 39, 40, 41, 42, 43, 44], [1, 10, 19, 28, 46, 55, 64, 73], [27, 28, 29, 36, 38, 45, 46, 47]], [[36, 37, 39, 40, 41, 42, 43, 44], [2, 11, 20, 29, 47, 56, 65, 74], [27, 28, 29, 36, 37, 45, 46, 47]], [[36, 37, 38, 40, 41, 42, 43, 44], [3, 12, 21, 30, 48, 57, 66, 75], [30, 31, 32, 40, 41, 48, 49, 50]], [[36, 37, 38, 39, 41, 42, 43, 44], [4, 13, 22, 31, 49, 58, 67, 76], [30, 31, 32, 39, 41, 48, 49, 50], [0, 10, 20, 30, 50, 60, 70, 80], [8, 16, 24, 32, 48, 56, 64, 72]], [[36, 37, 38, 39, 40, 42, 43, 44], [5, 14, 23, 32, 50, 59, 68, 77], [30, 31, 32, 39, 40, 48, 49, 50]], [[36, 37, 38, 39, 40, 41, 43, 44], [6, 15, 24, 33, 51, 60, 69, 78], [33, 34, 35, 43, 44, 51, 52, 53]], [[36, 37, 38, 39, 40, 41, 42, 44], [7, 16, 25, 34, 52, 61, 70, 79], [33, 34, 35, 42, 44, 51, 52, 53]], [[36, 37, 38, 39, 40, 41, 42, 43], [8, 17, 26, 35, 53, 62, 71, 80], [33, 34, 35, 42, 43, 51, 52, 53]], [[46, 47, 48, 49, 50, 51, 52, 53], [0, 9, 18, 27, 36, 54, 63, 72], [27, 28, 29, 36, 37, 38, 46, 47]], [[45, 47, 48, 49, 50, 51, 52, 53], [1, 10, 19, 28, 37, 55, 64, 73], [27, 28, 29, 36, 37, 38, 45, 47]], [[45, 46, 48, 49, 50, 51, 52, 53], [2, 11, 20, 29, 38, 56, 65, 74], [27, 28, 29, 36, 37, 38, 45, 46]], [[45, 46, 47, 49, 50, 51, 52, 53], [3, 12, 21, 30, 39, 57, 66, 75], [30, 31, 32, 39, 40, 41, 49, 50], [8, 16, 24, 32, 40, 56, 64, 72]], [[45, 46, 47, 48, 50, 51, 52, 53], [4, 13, 22, 31, 40, 58, 67, 76], [30, 31, 32, 39, 40, 41, 48, 50]], [[45, 46, 47, 48, 49, 51, 52, 53], [5, 14, 23, 32, 41, 59, 68, 77], [30, 31, 32, 39, 40, 41, 48, 49], [0, 10, 20, 30, 40, 60, 70, 80]], [[45, 46, 47, 48, 49, 50, 52, 53], [6, 15, 24, 33, 42, 60, 69, 78], [33, 34, 35, 42, 43, 44, 52, 53]], [[45, 46, 47, 48, 49, 50, 51, 53], [7, 16, 25, 34, 43, 61, 70, 79], [33, 34, 35, 42, 43, 44, 51, 53]], [[45, 46, 47, 48, 49, 50, 51, 52], [8, 17, 26, 35, 44, 62, 71, 80], [33, 34, 35, 42, 43, 44, 51, 52]], [[55, 56, 57, 58, 59, 60, 61, 62], [0, 9, 18, 27, 36, 45, 63, 72], [55, 56, 63, 64, 65, 72, 73, 74]], [[54, 56, 57, 58, 59, 60, 61, 62], [1, 10, 19, 28, 37, 46, 64, 73], [54, 56, 63, 64, 65, 72, 73, 74]], [[54, 55, 57, 58, 59, 60, 61, 62], [2, 11, 20, 29, 38, 47, 65, 74], [54, 55, 63, 64, 65, 72, 73, 74], [8, 16, 24, 32, 40, 48, 64, 72]], [[54, 55, 56, 58, 59, 60, 61, 62], [3, 12, 21, 30, 39, 48, 66, 75], [58, 59, 66, 67, 68, 75, 76, 77]], [[54, 55, 56, 57, 59, 60, 61, 62], [4, 13, 22, 31, 40, 49, 67, 76], [57, 59, 66, 67, 68, 75, 76, 77]], [[54, 55, 56, 57, 58, 60, 61, 62], [5, 14, 23, 32, 41, 50, 68, 77], [57, 58, 66, 67, 68, 75, 76, 77]], [[54, 55, 56, 57, 58, 59, 61, 62], [6, 15, 24, 33, 42, 51, 69, 78], [61, 62, 69, 70, 71, 78, 79, 80], [0, 10, 20, 30, 40, 50, 70, 80]], [[54, 55, 56, 57, 58, 59, 60, 62], [7, 16, 25, 34, 43, 52, 70, 79], [60, 62, 69, 70, 71, 78, 79, 80]], [[54, 55, 56, 57, 58, 59, 60, 61], [8, 17, 26, 35, 44, 53, 71, 80], [60, 61, 69, 70, 71, 78, 79, 80]], [[64, 65, 66, 67, 68, 69, 70, 71], [0, 9, 18, 27, 36, 45, 54, 72], [54, 55, 56, 64, 65, 72, 73, 74]], [[63, 65, 66, 67, 68, 69, 70, 71], [1, 10, 19, 28, 37, 46, 55, 73], [54, 55, 56, 63, 65, 72, 73, 74], [8, 16, 24, 32, 40, 48, 56, 72]], [[63, 64, 66, 67, 68, 69, 70, 71], [2, 11, 20, 29, 38, 47, 56, 74], [54, 55, 56, 63, 64, 72, 73, 74]], [[63, 64, 65, 67, 68, 69, 70, 71], [3, 12, 21, 30, 39, 48, 57, 75], [57, 58, 59, 67, 68, 75, 76, 77]], [[63, 64, 65, 66, 68, 69, 70, 71], [4, 13, 22, 31, 40, 49, 58, 76], [57, 58, 59, 66, 68, 75, 76, 77]], [[63, 64, 65, 66, 67, 69, 70, 71], [5, 14, 23, 32, 41, 50, 59, 77], [57, 58, 59, 66, 67, 75, 76, 77]], [[63, 64, 65, 66, 67, 68, 70, 71], [6, 15, 24, 33, 42, 51, 60, 78], [60, 61, 62, 70, 71, 78, 79, 80]], [[63, 64, 65, 66, 67, 68, 69, 71], [7, 16, 25, 34, 43, 52, 61, 79], [60, 61, 62, 69, 71, 78, 79, 80], [0, 10, 20, 30, 40, 50, 60, 80]], [[63, 64, 65, 66, 67, 68, 69, 70], [8, 17, 26, 35, 44, 53, 62, 80], [60, 61, 62, 69, 70, 78, 79, 80]], [[73, 74, 75, 76, 77, 78, 79, 80], [0, 9, 18, 27, 36, 45, 54, 63], [54, 55, 56, 63, 64, 65, 73, 74], [8, 16, 24, 32, 40, 48, 56, 64]], [[72, 74, 75, 76, 77, 78, 79, 80], [1, 10, 19, 28, 37, 46, 55, 64], [54, 55, 56, 63, 64, 65, 72, 74]], [[72, 73, 75, 76, 77, 78, 79, 80], [2, 11, 20, 29, 38, 47, 56, 65], [54, 55, 56, 63, 64, 65, 72, 73]], [[72, 73, 74, 76, 77, 78, 79, 80], [3, 12, 21, 30, 39, 48, 57, 66], [57, 58, 59, 66, 67, 68, 76, 77]], [[72, 73, 74, 75, 77, 78, 79, 80], [4, 13, 22, 31, 40, 49, 58, 67], [57, 58, 59, 66, 67, 68, 75, 77]], [[72, 73, 74, 75, 76, 78, 79, 80], [5, 14, 23, 32, 41, 50, 59, 68], [57, 58, 59, 66, 67, 68, 75, 76]], [[72, 73, 74, 75, 76, 77, 79, 80], [6, 15, 24, 33, 42, 51, 60, 69], [60, 61, 62, 69, 70, 71, 79, 80]], [[72, 73, 74, 75, 76, 77, 78, 80], [7, 16, 25, 34, 43, 52, 61, 70], [60, 61, 62, 69, 70, 71, 78, 80]], [[72, 73, 74, 75, 76, 77, 78, 79], [8, 17, 26, 35, 44, 53, 62, 71], [60, 61, 62, 69, 70, 71, 78, 79], [0, 10, 20, 30, 40, 50, 60, 70]]]

/-- `board.unit_peers(b)`: look up the precomputed map. -/
def unit_peers (b : Nat) : List (List Nat) := unit_peers_map.getD b []

/-- Keep the first occurrence of each element (the peers of a box form a Python
set; `eliminate` is insensitive to the set's iteration order and duplicates,
so any duplicate-free enumeration is faithful). -/
def dedupFirst : List Nat → List Nat
  | [] => []
  | a :: l => a :: (dedupFirst l).filter (fun x => x != a)

/-- `board.all_peers_map`: `set(sum(unit_peers_map[b], []))` per box, computed
once at board construction and stored; the stored table is the literal below,
and `all_peers_map_eq` proves it equal to that construction (first-occurrence
enumeration of the set). -/
def all_peers_map : List (List Nat) :=
  [[1, 2, 3, 4, 5, 6, 7, 8, 9, 18, 27, 36, 45, 54, 63, 72, 10, 11, 19, 20, 30, 40, 50, 60, 70, 80], [0, 2, 3, 4, 5, 6, 7, 8, 10, 19, 28, 37, 46, 55, 64, 73, 9, 11, 18, 20], [0, 1, 3, 4, 5, 6, 7, 8, 11, 20, 29, 38, 47, 56, 65, 74, 9, 10, 18, 19], [0, 1, 2, 4, 5, 6, 7, 8, 12, 21, 30, 39, 48, 57, 66, 75, 13, 14, 22, 23], [0, 1, 2, 3, 5, 6, 7, 8, 13, 22, 31, 40, 49, 58, 67, 76, 12, 14, 21, 23], [0, 1, 2, 3, 4, 6, 7, 8, 14, 23, 32, 41, 50, 59, 68, 77, 12, 13, 21, 22], [0, 1, 2, 3, 4, 5, 7, 8, 15, 24, 33, 42, 51, 60, 69, 78, 16, 17, 25, 26], [0, 1, 2, 3, 4, 5, 6, 8, 16, 25, 34, 43, 52, 61, 70, 79, 15, 17, 24, 26], [0, 1, 2, 3, 4, 5, 6, 7, 17, 26, 35, 44, 53, 62, 71, 80, 15, 16, 24, 25, 32, 40, 48, 56, 64, 72], [10, 11, 12, 13, 14, 15, 16, 17, 0, 18, 27, 36, 45, 54, 63, 72, 1, 2, 19, 20], [9, 11, 12, 13, 14, 15, 16, 17, 1, 19, 28, 37, 46, 55, 64, 73, 0, 2, 18, 20, 30, 40, 50, 60, 70, 80], [9, 10, 12, 13, 14, 15, 16, 17, 2, 20, 29, 38, 47, 56, 65, 74, 0, 1, 18, 19], [9, 10, 11, 13, 14, 15, 16, 17, 3, 21, 30, 39, 48, 57, 66, 75, 4, 5, 22, 23], [9, 10, 11, 12, 14, 15, 16, 17, 4, 22, 31, 40, 49, 58, 67, 76, 3, 5, 21, 23], [9, 10, 11, 12, 13, 15, 16, 17, 5, 23, 32, 41, 50, 59, 68, 77, 3, 4, 21, 22], [9, 10, 11, 12, 13, 14, 16, 17, 6, 24, 33, 42, 51, 60, 69, 78, 7, 8, 25, 26], [9, 10, 11, 12, 13, 14, 15, 17, 7, 25, 34, 43, 52, 61, 70, 79, 6, 8, 24, 26, 32, 40, 48, 56, 64, 72], [9, 10, 11, 12, 13, 14, 15, 16, 8, 26, 35, 44, 53, 62, 71, 80, 6, 7, 24, 25], [19, 20, 21, 22, 23, 24, 25, 26, 0, 9, 27, 36, 45, 54, 63, 72, 1, 2, 10, 11], [18, 20, 21, 22, 23, 24, 25, 26, 1, 10, 28, 37, 46, 55, 64, 73, 0, 2, 9, 11], [18, 19, 21, 22, 23, 24, 25, 26, 2, 11, 29, 38, 47, 56, 65, 74, 0, 1, 9, 10, 30, 40, 50, 60, 70, 80], [18, 19, 20, 22, 23, 24, 25, 26, 3, 12, 30, 39, 48, 57, 66, 75, 4, 5, 13, 14], [18, 19, 20, 21, 23, 24, 25, 26, 4, 13, 31, 40, 49, 58, 67, 76, 3, 5, 12, 14], [18, 19, 20, 21, 22, 24, 25, 26, 5, 14, 32, 41, 50, 59, 68, 77, 3, 4, 12, 13], [18, 19, 20, 21, 22, 23, 25, 26, 6, 15, 33, 42, 51, 60, 69, 78, 7, 8, 16, 17, 32, 40, 48, 56, 64, 72], [18, 19, 20, 21, 22, 23, 24, 26, 7, 16, 34, 43, 52, 61, 70, 79, 6, 8, 15, 17], [18, 19, 20, 21, 22, 23, 24, 25, 8, 17, 35, 44, 53, 62, 71, 80, 6, 7, 15, 16], [28, 29, 30, 31, 32, 33, 34, 35, 0, 9, 18, 36, 45, 54, 63, 72, 37, 38, 46, 47], [27, 29, 30, 31, 32, 33, 34, 35, 1, 10, 19, 37, 46, 55, 64, 73, 36, 38, 45, 47], [27, 28, 30, 31, 32, 33, 34, 35, 2, 11, 20, 38, 47, 56, 65, 74, 36, 37, 45, 46], [27, 28, 29, 31, 32, 33, 34, 35, 3, 12, 21, 39, 48, 57, 66, 75, 40, 41, 49, 50, 0, 10, 20, 60, 70, 80], [27, 28, 29, 30, 32, 33, 34, 35, 4, 13, 22, 40, 49, 58, 67, 76, 39, 41, 48, 50], [27, 28, 29, 30, 31, 33, 34, 35, 5, 14, 23, 41, 50, 59, 68, 77, 39, 40, 48, 49, 8, 16, 24, 56, 64, 72], [27, 28, 29, 30, 31, 32, 34, 35, 6, 15, 24, 42, 51, 60, 69, 78, 43, 44, 52, 53], [27, 28, 29, 30, 31, 32, 33, 35, 7, 16, 25, 43, 52, 61, 70, 79, 42, 44, 51, 53], [27, 28, 29, 30, 31, 32, 33, 34, 8, 17, 26, 44, 53, 62, 71, 80, 42, 43, 51, 52], [37, 38, 39, 40, 41, 42, 43, 44, 0, 9, 18, 27, 45, 54, 63, 72, 28, 29, 46, 47], [36, 38, 39, 40, 41, 42, 43, 44, 1, 10, 19, 28, 46, 55, 64, 73, 27, 29, 45, 47], [36, 37, 39, 40, 41, 42, 43, 44, 2, 11, 20, 29, 47, 56, 65, 74, 27, 28, 45, 46], [36, 37, 38, 40, 41, 42, 43, 44, 3, 12, 21, 30, 48, 57, 66, 75, 31, 32, 49, 50], [36, 37, 38, 39, 41, 42, 43, 44, 4, 13, 22, 31, 49, 58, 67, 76, 30, 32, 48, 50, 0, 10, 20, 60, 70, 80, 8, 16, 24, 56, 64, 72], [36, 37, 38, 39, 40, 42, 43, 44, 5, 14, 23, 32, 50, 59, 68, 77, 30, 31, 48, 49], [36, 37, 38, 39, 40, 41, 43, 44, 6, 15, 24, 33, 51, 60, 69, 78, 34, 35, 52, 53], [36, 37, 38, 39, 40, 41, 42, 44, 7, 16, 25, 34, 52, 61, 70, 79, 33, 35, 51, 53], [36, 37, 38, 39, 40, 41, 42, 43, 8, 17, 26, 35, 53, 62, 71, 80, 33, 34, 51, 52], [46, 47, 48, 49, 50, 51, 52, 53, 0, 9, 18, 27, 36, 54, 63, 72, 28, 29, 37, 38], [45, 47, 48, 49, 50, 51, 52, 53, 1, 10, 19, 28, 37, 55, 64, 73, 27, 29, 36, 38], [45, 46, 48, 49, 50, 51, 52, 53, 2, 11, 20, 29, 38, 56, 65, 74, 27, 28, 36, 37], [45, 46, 47, 49, 50, 51, 52, 53, 3, 12, 21, 30, 39, 57, 66, 75, 31, 32, 40, 41, 8, 16, 24, 56, 64, 72], [45, 46, 47, 48, 50, 51, 52, 53, 4, 13, 22, 31, 40, 58, 67, 76, 30, 32, 39, 41], [45, 46, 47, 48, 49, 51, 52, 53, 5, 14, 23, 32, 41, 59, 68, 77, 30, 31, 39, 40, 0, 10, 20, 60, 70, 80], [45, 46, 47, 48, 49, 50, 52, 53, 6, 15, 24, 33, 42, 60, 69, 78, 34, 35, 43, 44], [45, 46, 47, 48, 49, 50, 51, 53, 7, 16, 25, 34, 43, 61, 70, 79, 33, 35, 42, 44], [45, 46, 47, 48, 49, 50, 51, 52, 8, 17, 26, 35, 44, 62, 71, 80, 33, 34, 42, 43], [55, 56, 57, 58, 59, 60, 61, 62, 0, 9, 18, 27, 36, 45, 63, 72, 64, 65, 73, 74], [54, 56, 57, 58, 59, 60, 61, 62, 1, 10, 19, 28, 37, 46, 64, 73, 63, 65, 72, 74], [54, 55, 57, 58, 59, 60, 61, 62, 2, 11, 20, 29, 38, 47, 65, 74, 63, 64, 72, 73, 8, 16, 24, 32, 40, 48], [54, 55, 56, 58, 59, 60, 61, 62, 3, 12, 21, 30, 39, 48, 66, 75, 67, 68, 76, 77], [54, 55, 56, 57, 59, 60, 61, 62, 4, 13, 22, 31, 40, 49, 67, 76, 66, 68, 75, 77], [54, 55, 56, 57, 58, 60, 61, 62, 5, 14, 23, 32, 41, 50, 68, 77, 66, 67, 75, 76], [54, 55, 56, 57, 58, 59, 61, 62, 6, 15, 24, 33, 42, 51, 69, 78, 70, 71, 79, 80, 0, 10, 20, 30, 40, 50], [54, 55, 56, 57, 58, 59, 60, 62, 7, 16, 25, 34, 43, 52, 70, 79, 69, 71, 78, 80], [54, 55, 56, 57, 58, 59, 60, 61, 8, 17, 26, 35, 44, 53, 71, 80, 69, 70, 78, 79], [64, 65, 66, 67, 68, 69, 70, 71, 0, 9, 18, 27, 36, 45, 54, 72, 55, 56, 73, 74], [63, 65, 66, 67, 68, 69, 70, 71, 1, 10, 19, 28, 37, 46, 55, 73, 54, 56, 72, 74, 8, 16, 24, 32, 40, 48], [63, 64, 66, 67, 68, 69, 70, 71, 2, 11, 20, 29, 38, 47, 56, 74, 54, 55, 72, 73], [63, 64, 65, 67, 68, 69, 70, 71, 3, 12, 21, 30, 39, 48, 57, 75, 58, 59, 76, 77], [63, 64, 65, 66, 68, 69, 70, 71, 4, 13, 22, 31, 40, 49, 58, 76, 57, 59, 75, 77], [63, 64, 65, 66, 67, 69, 70, 71, 5, 14, 23, 32, 41, 50, 59, 77, 57, 58, 75, 76], [63, 64, 65, 66, 67, 68, 70, 71, 6, 15, 24, 33, 42, 51, 60, 78, 61, 62, 79, 80], [63, 64, 65, 66, 67, 68, 69, 71, 7, 16, 25, 34, 43, 52, 61, 79, 60, 62, 78, 80, 0, 10, 20, 30, 40, 50], [63, 64, 65, 66, 67, 68, 69, 70, 8, 17, 26, 35, 44, 53, 62, 80, 60, 61, 78, 79], [73, 74, 75, 76, 77, 78, 79, 80, 0, 9, 18, 27, 36, 45, 54, 63, 55, 56, 64, 65, 8, 16, 24, 32, 40, 48], [72, 74, 75, 76, 77, 78, 79, 80, 1, 10, 19, 28, 37, 46, 55, 64, 54, 56, 63, 65], [72, 73, 75, 76, 77, 78, 79, 80, 2, 11, 20, 29, 38, 47, 56, 65, 54, 55, 63, 64], [72, 73, 74, 76, 77, 78, 79, 80, 3, 12, 21, 30, 39, 48, 57, 66, 58, 59, 67, 68], [72, 73, 74, 75, 77, 78, 79, 80, 4, 13, 22, 31, 40, 49, 58, 67, 57, 59, 66, 68], [72, 73, 74, 75, 76, 78, 79, 80, 5, 14, 23, 32, 41, 50, 59, 68, 57, 58, 66, 67], [72, 73, 74, 75, 76, 77, 79, 80, 6, 15, 24, 33, 42, 51, 60, 69, 61, 62, 70, 71], [72, 73, 74, 75, 76, 77, 78, 80, 7, 16, 25, 34, 43, 52, 61, 70, 60, 62, 69, 71], [72, 73, 74, 75, 76, 77, 78, 79, 8, 17, 26, 35, 44, 53, 62, 71, 60, 61, 69, 70, 0, 10, 20, 30, 40, 50]]

/-- `board.all_peers(b)`: look up the precomputed map. -/
def all_peers (b : Nat) : List Nat := all_peers_map.getD b []

/-- `grid_values`: `'.'` becomes the full candidate string, any other character
becomes itself; `zip(board.boxes, grid)` silently truncates to 81 entries. -/
def grid_values (grid : List Char) : Values :=
  (grid.take 81).map (fun c => if c = '.' then nine else [c])

/-- `values_grid`: serialize a state, printing `'.'` for non-singleton values. -/
def values_grid (v : Values) : List Char :=
  ((List.range 81).map (fun b => if (v.getD b []).length = 1 then v.getD b [] else ['.'])).flatten

/-- The 81 box labels `A1 .. I9` produced by `cross(rows, cols)` on the label
strings, for describing `grid_values` as a keyed dict. -/
def boxLabels : List String :=
  "ABCDEFGHI".toList.flatMap (fun r => "123456789".toList.map (fun c => String.mk [r, c]))

/-- `grid_values` as the literal keyed dict `{k: ... for k, v in zip(board.boxes, grid)}`
(association list in insertion order). -/
def grid_values_dict (grid : List Char) : List (String × Value) :=
  (boxLabels.zip grid).map (fun kv => (kv.1, if kv.2 = '.' then nine else [kv.2]))

/-- `boxes_with_value_len`: the boxes whose value string has the given length,
in dict (= box) order. -/
def boxes_with_value_len (v : Values) (n : Nat) : List Nat :=
  (List.range v.length).filter (fun i => (v.getD i []).length == n)

/-- `solved_boxes`: boxes with a single candidate. -/
def solved_boxes (v : Values) : List Nat := boxes_with_value_len v 1

/-- `unsolved_boxes`: boxes with more than one candidate. -/
def unsolved_boxes (v : Values) : List Nat :=
  (List.range v.length).filter (fun i => decide (1 < (v.getD i []).length))

/-- `solved_count`. -/
def solved_count (v : Values) : Nat := (solved_boxes v).length

/-- Lexicographic comparison of value strings, as Python compares `str`. -/
def lexLe : List Char → List Char → Bool
  | [], _ => true
  | _ :: _, [] => false
  | a :: s, b :: t => if a < b then true else if b < a then false else lexLe s t

/-- The target `['1', '2', ..., '9']` of the per-unit validity check. -/
def evalues : List Value := [['1'], ['2'], ['3'], ['4'], ['5'], ['6'], ['7'], ['8'], ['9']]

/-- `is_valid`: every unit's sorted list of value strings is exactly
`['1', ..., '9']`. -/
def is_valid (v : Values) : Bool :=
  units.all (fun u =>
    List.insertionSort (fun a b => lexLe a b = true) (u.map (fun b => v.getD b [])) == evalues)

/-- `invalid_boxes` (the `solution.py` version): `True` when some box has an
empty value string; both remaining branches of the source return `False`. -/
def invalid_boxes (v : Values) : Bool :=
  let list_invalid := boxes_with_value_len v 0
  if list_invalid ≠ [] then true
  else if solved_count v == 81 && !(is_valid v) then false
  else false

/-- `check_complete`: `(False, False)` on an empty-valued box, otherwise the
completion flag, replacing the state by `False` when complete but invalid.
`False` results are modelled as `none`. -/
def check_complete (v : Values) : Bool × Option Values :=
  if invalid_boxes v then (false, none)
  else if solved_count v = 81 then
    (if is_valid v = false then (true, none) else (true, some v))
  else (false, some v)

/-- `assign_value` without the visualizer log: write `x` at `b` unless it is
already there. -/
def assign_value (v : Values) (b : Nat) (x : Value) : Values :=
  if v.getD b [] = x then v else v.set b x

/-- The scanning loop of `pyReplace`, with fuel for structural recursion; one
character of `s` is consumed per step (the pattern is non-empty here), so fuel
`s.length` always suffices and the fuel branch is unreachable. -/
def pyReplaceGo : Nat → List Char → List Char → List Char
  | _, [], _ => []
  | 0, s, _ => s
  | fuel + 1, c :: s1, old =>
    if old.isPrefixOf (c :: s1) then pyReplaceGo fuel ((c :: s1).drop old.length) old
    else c :: pyReplaceGo fuel s1 old

/-- Python's `s.replace(old, '')`: drop non-overlapping occurrences of `old`
scanning left to right; the empty pattern is the identity. -/
def pyReplace (s old : List Char) : List Char :=
  if old = [] then s else pyReplaceGo s.length s old

/-- The inner loop body of `eliminate`: remove the current value of solved box
`s` from peer `p`. -/
def eliminate_peer (s : Nat) (w : Values) (p : Nat) : Values :=
  assign_value w p (pyReplace (w.getD p []) (w.getD s []))

/-- The outer loop body of `eliminate`: process all peers of solved box `s`. -/
def eliminate_box (w : Values) (s : Nat) : Values :=
  (all_peers s).foldl (eliminate_peer s) w

/-- `eliminate`: for each initially solved box, remove its (current) value from
each of its peers. -/
def eliminate (v : Values) : Values := (solved_boxes v).foldl eliminate_box v

/-- `''.join([values[peer] for peer in unit])`: concatenation of the current
value strings of a unit's members. -/
def other_choices_of (w : Values) (u : List Nat) : List Char :=
  (u.map (fun p => w.getD p [])).flatten

/-- The loop body of `only_choice` for one box: scan its units in order and
assign the first candidate that appears nowhere else in some unit. -/
def only_choice_box (w : Values) (b : Nat) : Values :=
  let choices := w.getD b []
  match (unit_peers b).findSome? (fun u =>
    choices.find? (fun c => !((other_choices_of w u).contains c))) with
  | some c => assign_value w b [c]
  | none => w

/-- `only_choice` over all initially unsolved boxes. -/
def only_choice (v : Values) : Values := (unsolved_boxes v).foldl only_choice_box v

/-- One character step of `remove_choices`: if the snapshot character is one of
the twins' candidates, strip it from the non-twin peer's current value. -/
def rc_step (choices : Value) (ntp : Nat) (w2 : Values) (c : Char) : Values :=
  if c ∈ choices then assign_value w2 ntp (pyReplace (w2.getD ntp []) [c]) else w2

/-- The innermost loop of `naked_twins`: iterate over a snapshot of the
non-twin peer's value string, removing each character that the twins hold. -/
def remove_choices (w : Values) (choices : Value) (ntp : Nat) : Values :=
  (w.getD ntp []).foldl (rc_step choices ntp) w

/-- One `non_twin_peer` step of `naked_twins`: skip the matched twin itself,
strip the twins' candidates from every other member of the unit. -/
def nt_remove_step (choices : Value) (peer : Nat) (w2 : Values) (ntp : Nat) : Values :=
  if ntp = peer then w2 else remove_choices w2 choices ntp

/-- One `peer` step of `naked_twins`: when the peer's current value equals the
box's two-candidate string, run the removal loop over the whole unit. -/
def nt_peer_step (choices : Value) (u : List Nat) (wp : Values) (peer : Nat) : Values :=
  if wp.getD peer [] = choices then u.foldl (nt_remove_step choices peer) wp else wp

/-- One `unit` step of `naked_twins`: scan all members of one unit of the box. -/
def nt_unit_step (choices : Value) (wu : Values) (u : List Nat) : Values :=
  u.foldl (nt_peer_step choices u) wu

/-- The loop body of `naked_twins` for one box: if it currently has at most two
candidates, find unit peers with the identical value string and strip those
candidates from the rest of that unit. -/
def naked_twins_box (w : Values) (box : Nat) : Values :=
  let choices := w.getD box []
  if 2 < choices.length then w
  else (unit_peers box).foldl (nt_unit_step choices) w

/-- `naked_twins` over all initially unsolved boxes. -/
def naked_twins (v : Values) : Values := (unsolved_boxes v).foldl naked_twins_box v

/-- One `while` pass structure of `reduce_puzzle` with explicit fuel.  Each
non-terminal round strictly increases the number of solved boxes (propagation
only shrinks value strings and a round that empties a box breaks out), so at
most 82 rounds can ever run; the fuel is never exhausted when started at 82.
On a break the loop returns whatever `check_complete` returned as the state
(the solved grid, or `none` for the Python literal `False`); when
`check_complete` does not break, it returned the state unchanged, so the round
continues with `v1` / `v2` / `v3` directly. -/
def reduce_loop : Nat → List Nat → Values → Option Values
  | 0, _, _ => none
  | fuel + 1, sbb, v =>
    let v1 := eliminate v
    let c1 := check_complete v1
    if c1.1 = true ∨ c1.2 = none then c1.2
    else
      let v2 := only_choice v1
      let c2 := check_complete v2
      if c2.1 = true ∨ c2.2 = none then c2.2
      else
        let v3 := naked_twins v2
        let sba := solved_boxes v3
        let c3 := check_complete v3
        if c3.1 = true ∨ c3.2 = none then c3.2
        else
          if invalid_boxes v3 then none
          else if sbb = sba then some v3
          else reduce_loop fuel sba v3

/-- `reduce_puzzle`: iterate eliminate / only_choice / naked_twins until the
solved-box list stops changing, breaking out on completion or contradiction. -/
def reduce_puzzle (v : Values) : Option Values := reduce_loop 82 (solved_boxes v) v

/-- `sorted(unfilled, key=len)[0]`: the first pair whose value string has
minimal length (Python's sort is stable). -/
def pick_min : List (Nat × Value) → Option (Nat × Value)
  | [] => none
  | x :: xs => some (xs.foldl (fun best y => if y.2.length < best.2.length then y else best) x)

/-- `search` with explicit fuel bounding the recursion depth.  Each recursive
call strictly decreases the number of unsolved boxes (at most 81), so fuel 82
is never exhausted.  The two `none` fallbacks mark states on which the source
would raise (`search(False)` / `unfilled[0]` on an empty list); they are
unreachable from states without empty-valued boxes. -/
def searchF : Nat → Values → Option Values
  | 0, _ => none
  | fuel + 1, v =>
    let c := check_complete v
    if c.1 = true then c.2
    else if c.2 = none then none
    else
      match pick_min ((unsolved_boxes v).map (fun b => (b, v.getD b []))) with
      | none => none
      | some (node, choices) =>
        choices.findSome? (fun ch =>
          match reduce_puzzle (v.set node [ch]) with
          | none => none
          | some t => searchF fuel t)

/-- `search` at its standing depth bound. -/
def search (v : Values) : Option Values := searchF 82 v

/-- `solve`: parse, propagate, and fall back to search; the final re-assignment
loop of the source writes every box its own value back and is a no-op. -/
def solve (grid : List Char) : Option Values :=
  match reduce_puzzle (grid_values grid) with
  | none => none
  | some v =>
    let c := check_complete v
    if c.1 = false ∨ c.2 = none then
      (if c.2 = none then none else search v)
    else c.2


/-! ### Concrete states used by the scenario proofs, witnesses and counterexamples. -/

/-- Helper to write state literals compactly. -/
def sVals (l : List String) : Values := l.map String.toList

/-- The C9 scenario input grid. -/
def diagGrid : List Char :=
  "2.............62....1....7...6..8...3...9...7...6..4...4....8....52.............3".toList

/-- The C9 expected serialized solution. -/
def expectedSol : List Char :=
  "267945381853716249491823576576438192384192657129657438642379815935281764718564923".toList

/-- The parsed initial state of the C9 scenario. -/
def c9s0 : Values := sVals ["2", "123456789", "123456789", "123456789", "123456789", "123456789", "123456789", "123456789", "123456789", "123456789", "123456789", "123456789", "123456789", "123456789", "6", "2", "123456789", "123456789", "123456789", "123456789", "1", "123456789", "123456789", "123456789", "123456789", "7", "123456789", "123456789", "123456789", "6", "123456789", "123456789", "8", "123456789", "123456789", "123456789", "3", "123456789", "123456789", "123456789", "9", "123456789", "123456789", "123456789", "7", "123456789", "123456789", "123456789", "6", "123456789", "123456789", "4", "123456789", "123456789", "123456789", "4", "123456789", "123456789", "123456789", "123456789", "8", "123456789", "123456789", "123456789", "123456789", "5", "2", "123456789", "123456789", "123456789", "123456789", "123456789", "123456789", "123456789", "123456789", "123456789", "123456789", "123456789", "123456789", "123456789", "3"]
def c9sbL0 : List Nat := [0, 14, 15, 20, 25, 29, 32, 36, 40, 44, 48, 51, 55, 60, 65, 66, 80]
def c9e1 : Values := sVals ["2", "356789", "34789", "1345789", "134578", "134579", "13569", "1345689", "145", "45789", "57", "34789", "1345789", "134578", "6", "2", "1345", "14589", "45689", "35689", "1", "34589", "23458", "23459", "35", "7", "45689", "14579", "12579", "6", "457", "123457", "8", "1359", "12359", "1259", "3", "1258", "248", "145", "9", "1245", "156", "12568", "7", "15789", "125789", "2789", "6", "12357", "57", "4", "123589", "12589", "1679", "4", "237", "13579", "13567", "13579", "8", "12569", "12569", "16789", "137", "5", "2", "134678", "13479", "1679", "46", "1469", "17", "126789", "2789", "145789", "145678", "14579", "15679", "124569", "3"]
def c9o1 : Values := sVals ["2", "356789", "34789", "1345789", "134578", "134579", "13569", "1345689", "145", "45789", "57", "34789", "1345789", "134578", "6", "2", "1345", "14589", "45689", "35689", "1", "34589", "23458", "23459", "35", "7", "45689", "14579", "12579", "6", "457", "123457", "8", "1359", "12359", "1259", "3", "1258", "248", "145", "9", "1245", "156", "12568", "7", "15789", "125789", "2789", "6", "12357", "57", "4", "123589", "12589", "1679", "4", "2", "13579", "13567", "13579", "8", "12569", "12569", "16789", "3", "5", "2", "134678", "13479", "1679", "6", "1469", "7", "126789", "2789", "145789", "145678", "14579", "15679", "124569", "3"]
def c9n1 : Values := sVals ["2", "356789", "34789", "1345789", "134578", "134579", "13569", "1345689", "145", "45789", "57", "34789", "1345789", "134578", "6", "2", "1345", "14589", "45689", "35689", "1", "34589", "23458", "23459", "35", "7", "45689", "14579", "12579", "6", "4", "123457", "8", "1359", "12359", "1259", "3", "1258", "248", "145", "9", "1245", "156", "12568", "7", "15789", "125789", "2789", "6", "12357", "57", "4", "123589", "12589", "1679", "4", "2", "13579", "13567", "13579", "8", "12569", "12569", "16789", "3", "5", "2", "134678", "13479", "1679", "6", "1469", "7", "126789", "2789", "145789", "145678", "14579", "15679", "124569", "3"]
def c9sbL1 : List Nat := [0, 14, 15, 20, 25, 29, 30, 32, 36, 40, 44, 48, 51, 55, 56, 60, 64, 65, 66, 70, 72, 80]
def c9m1x0 : Values := sVals ["2", "3456789", "345789", "1345789", "134578", "134579", "135689", "1345689", "1345", "45789", "34578", "345789", "1345789", "134578", "6", "2", "1345", "134589", "45689", "345689", "1", "234589", "23458", "23459", "35", "7", "345689", "14579", "124579", "6", "3457", "123457", "8", "1359", "12359", "12359", "3", "12458", "2458", "1245", "9", "1245", "1568", "12568", "7", "15789", "125789", "25789", "6", "12357", "357", "4", "123589", "123589", "1456789", "4", "23457", "12345789", "12345678", "1234579", "8", "12345689", "12345689", "1456789", "123457", "5", "2", "12345678", "1234579", "1356789", "34568", "12345689", "1457", "123456789", "2345789", "12345789", "12345678", "1234579", "1356789", "12345689", "3"]
def c9e2 : Values := sVals ["2", "56789", "34789", "135789", "134578", "134579", "13569", "134589", "145", "4589", "57", "34789", "135789", "134578", "6", "2", "145", "14589", "45689", "5689", "1", "3589", "23458", "23459", "5", "7", "45689", "159", "12579", "6", "4", "12357", "8", "1359", "12359", "1259", "3", "1258", "48", "15", "9", "125", "156", "1258", "7", "1589", "125789", "789", "6", "12357", "57", "4", "123589", "12589", "169", "4", "2", "13579", "13567", "13579", "8", "159", "159", "189", "3", "5", "2", "1478", "1479", "179", "6", "149", "7", "1689", "89", "1589", "14568", "1459", "159", "12459", "3"]
def c9o2 : Values := sVals ["2", "56789", "34789", "135789", "134578", "134579", "13569", "134589", "145", "4589", "57", "34789", "135789", "134578", "6", "2", "145", "14589", "45689", "5689", "1", "3589", "23458", "23459", "5", "7", "6", "159", "12579", "6", "4", "12357", "8", "1359", "12359", "1259", "3", "1258", "4", "15", "9", "125", "6", "1258", "7", "1589", "125789", "789", "6", "12357", "57", "4", "123589", "12589", "169", "4", "2", "13579", "13567", "13579", "8", "159", "159", "189", "3", "5", "2", "1478", "1479", "7", "6", "149", "7", "1689", "89", "1589", "14568", "1459", "159", "2", "3"]
def c9n2 : Values := sVals ["2", "56789", "34789", "135789", "134578", "134579", "13569", "134589", "145", "4589", "57", "34789", "135789", "134578", "6", "2", "145", "14589", "45689", "5689", "1", "3589", "23458", "23459", "5", "7", "6", "159", "12579", "6", "4", "12357", "8", "1359", "12359", "1259", "3", "1258", "4", "15", "9", "125", "6", "1258", "7", "1589", "125789", "789", "6", "12357", "57", "4", "123589", "12589", "169", "4", "2", "13579", "13567", "13579", "8", "159", "159", "189", "3", "5", "2", "1478", "1479", "7", "6", "149", "7", "1689", "89", "1589", "14568", "1459", "159", "2", "3"]
def c9sbL2 : List Nat := [0, 14, 15, 20, 24, 25, 26, 29, 30, 32, 36, 38, 40, 42, 44, 48, 51, 55, 56, 60, 64, 65, 66, 69, 70, 72, 79, 80]
def c9m2x0 : Values := sVals ["2", "356789", "34789", "135789", "134578", "134579", "13569", "1345689", "145", "45789", "57", "34789", "135789", "134578", "6", "2", "1345", "14589", "45689", "35689", "1", "3589", "23458", "23459", "35", "7", "45689", "1579", "12579", "6", "4", "12357", "8", "1359", "12359", "1259", "3", "1258", "248", "15", "9", "125", "156", "12568", "7", "15789", "125789", "2789", "6", "12357", "57", "4", "123589", "12589", "1679", "4", "2", "13579", "13567", "13579", "8", "12569", "12569", "16789", "3", "5", "2", "134678", "13479", "1679", "6", "1469", "7", "126789", "2789", "15789", "145678", "14579", "15679", "124569", "3"]
def c9e3 : Values := sVals ["2", "56789", "3789", "135789", "134578", "134579", "139", "13489", "14", "4589", "57", "3789", "135789", "134578", "6", "2", "14", "1489", "489", "89", "1", "389", "2348", "2349", "5", "7", "6", "159", "12579", "6", "4", "12357", "8", "139", "1359", "1259", "3", "1258", "4", "15", "9", "125", "6", "158", "7", "1589", "125789", "789", "6", "12357", "57", "4", "13589", "12589", "169", "4", "2", "13579", "13567", "13579", "8", "159", "159", "189", "3", "5", "2", "148", "149", "7", "6", "149", "7", "1689", "89", "1589", "14568", "1459", "19", "2", "3"]
def c9o3 : Values := sVals ["2", "6", "3789", "135789", "134578", "134579", "139", "13489", "14", "4589", "57", "3789", "135789", "134578", "6", "2", "14", "1489", "489", "89", "1", "389", "2348", "2349", "5", "7", "6", "159", "12579", "6", "4", "12357", "8", "139", "1359", "1259", "3", "1258", "4", "15", "9", "125", "6", "158", "7", "1589", "125789", "789", "6", "12357", "57", "4", "13589", "12589", "6", "4", "2", "13579", "13567", "13579", "8", "159", "159", "189", "3", "5", "2", "148", "149", "7", "6", "4", "7", "1689", "89", "1589", "14568", "1459", "19", "2", "3"]
def c9n3 : Values := sVals ["2", "6", "3789", "135789", "134578", "134579", "39", "389", "14", "4589", "57", "3789", "135789", "134578", "6", "2", "14", "89", "489", "89", "1", "389", "2348", "2349", "5", "7", "6", "159", "12579", "6", "4", "12357", "8", "139", "1359", "1259", "3", "1258", "4", "15", "9", "125", "6", "158", "7", "1589", "125789", "789", "6", "12357", "57", "4", "13589", "12589", "6", "4", "2", "13579", "13567", "13579", "8", "159", "159", "189", "3", "5", "2", "148", "149", "7", "6", "4", "7", "1689", "89", "1589", "14568", "1459", "19", "2", "3"]
def c9sbL3 : List Nat := [0, 1, 14, 15, 20, 24, 25, 26, 29, 30, 32, 36, 38, 40, 42, 44, 48, 51, 54, 55, 56, 60, 64, 65, 66, 69, 70, 71, 72, 79, 80]
def c9m3x0 : Values := sVals ["2", "56789", "3789", "135789", "134578", "134579", "139", "13489", "14", "4589", "57", "3789", "135789", "134578", "6", "2", "14", "1489", "489", "89", "1", "389", "2348", "2349", "5", "7", "6", "159", "12579", "6", "4", "12357", "8", "139", "12359", "1259", "3", "1258", "4", "15", "9", "125", "6", "1258", "7", "1589", "125789", "789", "6", "12357", "57", "4", "123589", "12589", "169", "4", "2", "13579", "13567", "13579", "8", "159", "159", "189", "3", "5", "2", "1478", "1479", "7", "6", "149", "7", "1689", "89", "1589", "14568", "1459", "19", "2", "3"]
def c9m3x1 : Values := sVals ["2", "56789", "3789", "135789", "134578", "134579", "139", "13489", "14", "4589", "57", "3789", "135789", "134578", "6", "2", "14", "1489", "489", "89", "1", "389", "2348", "2349", "5", "7", "6", "159", "12579", "6", "4", "12357", "8", "139", "12359", "1259", "3", "1258", "4", "15", "9", "125", "6", "1258", "7", "1589", "125789", "789", "6", "12357", "57", "4", "123589", "12589", "169", "4", "2", "13579", "13567", "13579", "8", "159", "159", "189", "3", "5", "2", "148", "149", "7", "6", "149", "7", "1689", "89", "1589", "14568", "1459", "19", "2", "3"]
def c9e4 : Values := sVals ["2", "6", "3789", "135789", "134578", "134579", "39", "389", "1", "4589", "57", "3789", "135789", "134578", "6", "2", "14", "89", "489", "89", "1", "389", "2348", "2349", "5", "7", "6", "159", "12579", "6", "4", "12357", "8", "139", "1359", "1259", "3", "1258", "4", "15", "9", "125", "6", "158", "7", "1589", "125789", "789", "6", "12357", "57", "4", "13589", "12589", "6", "4", "2", "13579", "1357", "13579", "8", "159", "159", "189", "3", "5", "2", "18", "19", "7", "6", "4", "7", "189", "89", "1589", "14568", "1459", "19", "2", "3"]
def c9o4 : Values := sVals ["2", "6", "3789", "135789", "134578", "134579", "39", "389", "1", "4589", "57", "3789", "135789", "134578", "6", "2", "4", "89", "489", "89", "1", "389", "2348", "2349", "5", "7", "6", "159", "12579", "6", "4", "12357", "8", "139", "1359", "1259", "3", "1258", "4", "15", "9", "125", "6", "158", "7", "1589", "125789", "789", "6", "12357", "57", "4", "13589", "12589", "6", "4", "2", "13579", "1357", "13579", "8", "159", "159", "189", "3", "5", "2", "18", "19", "7", "6", "4", "7", "189", "89", "1589", "6", "4", "19", "2", "3"]
def c9n4 : Values := sVals ["2", "6", "3789", "135789", "134578", "134579", "39", "389", "1", "4589", "57", "3789", "135789", "134578", "6", "2", "4", "89", "489", "89", "1", "389", "2348", "2349", "5", "7", "6", "159", "12579", "6", "4", "12357", "8", "139", "1359", "1259", "3", "1258", "4", "15", "9", "125", "6", "158", "7", "1589", "125789", "789", "6", "12357", "57", "4", "13589", "12589", "6", "4", "2", "13579", "1357", "13579", "8", "159", "159", "189", "3", "5", "2", "18", "19", "7", "6", "4", "7", "189", "89", "1589", "6", "4", "19", "2", "3"]
def c9sbL4 : List Nat := [0, 1, 8, 14, 15, 16, 20, 24, 25, 26, 29, 30, 32, 36, 38, 40, 42, 44, 48, 51, 54, 55, 56, 60, 64, 65, 66, 69, 70, 71, 72, 76, 77, 79, 80]
def c9m4x0 : Values := sVals ["2", "6", "3789", "135789", "134578", "134579", "39", "389", "14", "4589", "57", "3789", "135789", "134578", "6", "2", "14", "89", "489", "89", "1", "389", "2348", "2349", "5", "7", "6", "159", "12579", "6", "4", "12357", "8", "139", "1359", "1259", "3", "1258", "4", "15", "9", "125", "6", "158", "7", "1589", "125789", "789", "6", "12357", "57", "4", "13589", "12589", "6", "4", "2", "13579", "13567", "13579", "8", "159", "159", "189", "3", "5", "2", "148", "149", "7", "6", "4", "7", "189", "89", "1589", "14568", "1459", "19", "2", "3"]
def c9m4x1 : Values := sVals ["2", "6", "3789", "135789", "134578", "134579", "39", "389", "14", "4589", "57", "3789", "135789", "134578", "6", "2", "14", "89", "489", "89", "1", "389", "2348", "2349", "5", "7", "6", "159", "12579", "6", "4", "12357", "8", "139", "1359", "1259", "3", "1258", "4", "15", "9", "125", "6", "158", "7", "1589", "125789", "789", "6", "12357", "57", "4", "13589", "12589", "6", "4", "2", "13579", "1357", "13579", "8", "159", "159", "189", "3", "5", "2", "148", "149", "7", "6", "4", "7", "189", "89", "1589", "14568", "1459", "19", "2", "3"]
def c9e5 : Values := sVals ["2", "6", "3789", "35789", "34578", "3579", "39", "389", "1", "589", "57", "3789", "135789", "13578", "6", "2", "4", "89", "489", "89", "1", "389", "2348", "239", "5", "7", "6", "159", "12579", "6", "4", "12357", "8", "139", "1359", "259", "3", "1258", "4", "15", "9", "125", "6", "158", "7", "1589", "125789", "789", "6", "12357", "57", "4", "13589", "2589", "6", "4", "2", "13579", "1357", "13579", "8", "159", "59", "189", "3", "5", "2", "18", "19", "7", "6", "4", "7", "189", "89", "1589", "6", "4", "19", "2", "3"]
def c9o5 : Values := sVals ["2", "6", "3789", "35789", "4", "3579", "39", "389", "1", "589", "57", "3789", "135789", "13578", "6", "2", "4", "89", "4", "89", "1", "389", "2348", "239", "5", "7", "6", "159", "12579", "6", "4", "12357", "8", "139", "1359", "259", "3", "1258", "4", "15", "9", "125", "6", "158", "7", "1589", "125789", "789", "6", "12357", "57", "4", "13589", "2589", "6", "4", "2", "13579", "1357", "13579", "8", "159", "59", "189", "3", "5", "2", "18", "19", "7", "6", "4", "7", "189", "89", "5", "6", "4", "19", "2", "3"]
def c9n5 : Values := sVals ["2", "6", "3789", "35789", "4", "3579", "39", "389", "1", "589", "57", "3789", "135789", "13578", "6", "2", "4", "89", "4", "89", "1", "389", "2348", "239", "5", "7", "6", "159", "12579", "6", "4", "12357", "8", "139", "1359", "259", "3", "1258", "4", "15", "9", "125", "6", "158", "7", "1589", "125789", "789", "6", "12357", "57", "4", "13589", "2589", "6", "4", "2", "13579", "1357", "13579", "8", "159", "59", "189", "3", "5", "2", "18", "19", "7", "6", "4", "7", "189", "89", "5", "6", "4", "19", "2", "3"]
def c9sbL5 : List Nat := [0, 1, 4, 8, 14, 15, 16, 18, 20, 24, 25, 26, 29, 30, 32, 36, 38, 40, 42, 44, 48, 51, 54, 55, 56, 60, 64, 65, 66, 69, 70, 71, 72, 75, 76, 77, 79, 80]
def c9m5x0 : Values := sVals ["2", "6", "3789", "35789", "34578", "34579", "39", "389", "1", "589", "57", "3789", "135789", "13578", "6", "2", "4", "89", "489", "89", "1", "389", "2348", "2349", "5", "7", "6", "159", "12579", "6", "4", "12357", "8", "139", "1359", "259", "3", "1258", "4", "15", "9", "125", "6", "158", "7", "1589", "125789", "789", "6", "12357", "57", "4", "13589", "2589", "6", "4", "2", "13579", "1357", "13579", "8", "159", "59", "189", "3", "5", "2", "18", "19", "7", "6", "4", "7", "189", "89", "1589", "6", "4", "19", "2", "3"]
def c9m5x1 : Values := sVals ["2", "6", "3789", "35789", "34578", "34579", "39", "389", "1", "589", "57", "3789", "135789", "13578", "6", "2", "4", "89", "489", "89", "1", "389", "2348", "2349", "5", "7", "6", "159", "12579", "6", "4", "12357", "8", "139", "1359", "259", "3", "1258", "4", "15", "9", "125", "6", "158", "7", "1589", "125789", "789", "6", "12357", "57", "4", "13589", "2589", "6", "4", "2", "13579", "1357", "13579", "8", "159", "59", "189", "3", "5", "2", "18", "19", "7", "6", "4", "7", "189", "89", "1589", "6", "4", "19", "2", "3"]
def c9e6 : Values := sVals ["2", "6", "3789", "3789", "4", "3579", "39", "389", "1", "589", "57", "3789", "13789", "13578", "6", "2", "4", "89", "4", "89", "1", "389", "238", "239", "5", "7", "6", "159", "12579", "6", "4", "12357", "8", "139", "1359", "259", "3", "1258", "4", "1", "9", "125", "6", "158", "7", "1589", "125789", "789", "6", "12357", "57", "4", "13589", "2589", "6", "4", "2", "1379", "137", "1379", "8", "159", "59", "189", "3", "5", "2", "18", "19", "7", "6", "4", "7", "189", "89", "5", "6", "4", "19", "2", "3"]
def c9o6 : Values := sVals ["2", "6", "3789", "3789", "4", "5", "39", "389", "1", "589", "57", "3789", "13789", "13578", "6", "2", "4", "89", "4", "89", "1", "389", "238", "239", "5", "7", "6", "159", "12579", "6", "4", "12357", "8", "139", "1359", "259", "3", "1258", "4", "1", "9", "125", "6", "158", "7", "1589", "125789", "789", "6", "12357", "57", "4", "13589", "2589", "6", "4", "2", "1379", "137", "1379", "8", "159", "59", "189", "3", "5", "2", "8", "19", "7", "6", "4", "7", "189", "89", "5", "6", "4", "19", "2", "3"]
def c9n6 : Values := sVals ["2", "6", "3789", "3789", "4", "5", "39", "389", "1", "589", "57", "3789", "13789", "13578", "6", "2", "4", "89", "4", "89", "1", "389", "238", "239", "5", "7", "6", "159", "12579", "6", "4", "12357", "8", "139", "1359", "259", "3", "1258", "4", "1", "9", "125", "6", "158", "7", "1589", "125789", "789", "6", "12357", "57", "4", "13589", "2589", "6", "4", "2", "1379", "137", "1379", "8", "159", "59", "189", "3", "5", "2", "8", "19", "7", "6", "4", "7", "189", "89", "5", "6", "4", "19", "2", "3"]
def c9sbL6 : List Nat := [0, 1, 4, 5, 8, 14, 15, 16, 18, 20, 24, 25, 26, 29, 30, 32, 36, 38, 39, 40, 42, 44, 48, 51, 54, 55, 56, 60, 64, 65, 66, 67, 69, 70, 71, 72, 75, 76, 77, 79, 80]
def c9m6x0 : Values := sVals ["2", "6", "3789", "35789", "4", "3579", "39", "389", "1", "589", "57", "3789", "135789", "13578", "6", "2", "4", "89", "4", "89", "1", "389", "238", "239", "5", "7", "6", "159", "12579", "6", "4", "12357", "8", "139", "1359", "259", "3", "1258", "4", "15", "9", "125", "6", "158", "7", "1589", "125789", "789", "6", "12357", "57", "4", "13589", "2589", "6", "4", "2", "13579", "1357", "13579", "8", "159", "59", "189", "3", "5", "2", "18", "19", "7", "6", "4", "7", "189", "89", "5", "6", "4", "19", "2", "3"]
def c9m6x1 : Values := sVals ["2", "6", "3789", "35789", "4", "3579", "39", "389", "1", "589", "57", "3789", "135789", "13578", "6", "2", "4", "89", "4", "89", "1", "389", "238", "239", "5", "7", "6", "159", "12579", "6", "4", "12357", "8", "139", "1359", "259", "3", "1258", "4", "15", "9", "125", "6", "158", "7", "1589", "125789", "789", "6", "12357", "57", "4", "13589", "2589", "6", "4", "2", "13579", "1357", "13579", "8", "159", "59", "189", "3", "5", "2", "18", "19", "7", "6", "4", "7", "189", "89", "5", "6", "4", "19", "2", "3"]
def c9m6x2 : Values := sVals ["2", "6", "3789", "3789", "4", "3579", "39", "389", "1", "589", "57", "3789", "13789", "13578", "6", "2", "4", "89", "4", "89", "1", "389", "238", "239", "5", "7", "6", "159", "12579", "6", "4", "12357", "8", "139", "1359", "259", "3", "1258", "4", "1", "9", "125", "6", "158", "7", "1589", "125789", "789", "6", "12357", "57", "4", "13589", "2589", "6", "4", "2", "1379", "137", "1379", "8", "159", "59", "189", "3", "5", "2", "18", "19", "7", "6", "4", "7", "189", "89", "5", "6", "4", "19", "2", "3"]
def c9e7 : Values := sVals ["2", "6", "3789", "3789", "4", "5", "39", "389", "1", "589", "57", "3789", "3789", "137", "6", "2", "4", "89", "4", "89", "1", "389", "23", "239", "5", "7", "6", "159", "12579", "6", "4", "2357", "8", "139", "1359", "259", "3", "258", "4", "1", "9", "2", "6", "58", "7", "1589", "125789", "789", "6", "2357", "7", "4", "13589", "2589", "6", "4", "2", "379", "137", "1379", "8", "159", "59", "19", "3", "5", "2", "8", "19", "7", "6", "4", "7", "189", "89", "5", "6", "4", "19", "2", "3"]
def c9o7 : Values := sVals ["2", "6", "3789", "3789", "4", "5", "39", "389", "1", "589", "5", "3789", "3789", "1", "6", "2", "4", "89", "4", "89", "1", "389", "23", "239", "5", "7", "6", "159", "12579", "6", "4", "2357", "8", "139", "1359", "259", "3", "258", "4", "1", "9", "2", "6", "58", "7", "1589", "125789", "789", "6", "2357", "7", "4", "13589", "2589", "6", "4", "2", "379", "137", "1379", "8", "159", "59", "19", "3", "5", "2", "8", "19", "7", "6", "4", "7", "189", "89", "5", "6", "4", "19", "2", "3"]
def c9n7 : Values := sVals ["2", "6", "3789", "3789", "4", "5", "39", "389", "1", "589", "5", "3789", "3789", "1", "6", "2", "4", "89", "4", "89", "1", "389", "23", "239", "5", "7", "6", "159", "12579", "6", "4", "2357", "8", "139", "1359", "259", "3", "258", "4", "1", "9", "2", "6", "58", "7", "1589", "125789", "789", "6", "2357", "7", "4", "13589", "2589", "6", "4", "2", "379", "137", "1379", "8", "159", "59", "19", "3", "5", "2", "8", "19", "7", "6", "4", "7", "189", "89", "5", "6", "4", "19", "2", "3"]
def c9sbL7 : List Nat := [0, 1, 4, 5, 8, 10, 13, 14, 15, 16, 18, 20, 24, 25, 26, 29, 30, 32, 36, 38, 39, 40, 41, 42, 44, 48, 50, 51, 54, 55, 56, 60, 64, 65, 66, 67, 69, 70, 71, 72, 75, 76, 77, 79, 80]
def c9m7x0 : Values := sVals ["2", "6", "3789", "3789", "4", "5", "39", "389", "1", "589", "57", "3789", "13789", "1378", "6", "2", "4", "89", "4", "89", "1", "389", "238", "239", "5", "7", "6", "159", "12579", "6", "4", "12357", "8", "139", "1359", "259", "3", "1258", "4", "1", "9", "12", "6", "158", "7", "1589", "125789", "789", "6", "12357", "7", "4", "13589", "2589", "6", "4", "2", "1379", "137", "1379", "8", "159", "59", "189", "3", "5", "2", "8", "19", "7", "6", "4", "7", "189", "89", "5", "6", "4", "19", "2", "3"]
def c9m7x1 : Values := sVals ["2", "6", "3789", "3789", "4", "5", "39", "389", "1", "589", "57", "3789", "3789", "1378", "6", "2", "4", "89", "4", "89", "1", "389", "238", "239", "5", "7", "6", "159", "12579", "6", "4", "2357", "8", "139", "1359", "259", "3", "258", "4", "1", "9", "2", "6", "58", "7", "1589", "125789", "789", "6", "2357", "7", "4", "13589", "2589", "6", "4", "2", "379", "137", "1379", "8", "159", "59", "189", "3", "5", "2", "8", "19", "7", "6", "4", "7", "189", "89", "5", "6", "4", "19", "2", "3"]
def c9m7x2 : Values := sVals ["2", "6", "3789", "3789", "4", "5", "39", "389", "1", "589", "57", "3789", "3789", "137", "6", "2", "4", "89", "4", "89", "1", "389", "23", "239", "5", "7", "6", "159", "12579", "6", "4", "2357", "8", "139", "1359", "259", "3", "258", "4", "1", "9", "2", "6", "58", "7", "1589", "125789", "789", "6", "2357", "7", "4", "13589", "2589", "6", "4", "2", "379", "137", "1379", "8", "159", "59", "19", "3", "5", "2", "8", "19", "7", "6", "4", "7", "189", "89", "5", "6", "4", "19", "2", "3"]
def c9e8 : Values := sVals ["2", "6", "3789", "3789", "4", "5", "39", "389", "1", "89", "5", "3789", "3789", "1", "6", "2", "4", "89", "4", "89", "1", "389", "23", "39", "5", "7", "6", "159", "1279", "6", "4", "35", "8", "139", "1359", "259", "3", "8", "4", "1", "9", "2", "6", "58", "7", "1589", "1289", "89", "6", "35", "7", "4", "13589", "2589", "6", "4", "2", "379", "37", "139", "8", "159", "59", "19", "3", "5", "2", "8", "19", "7", "6", "4", "7", "189", "89", "5", "6", "4", "19", "2", "3"]
def c9o8 : Values := sVals ["2", "6", "3789", "3789", "4", "5", "39", "389", "1", "89", "5", "3789", "3789", "1", "6", "2", "4", "89", "4", "89", "1", "389", "2", "39", "5", "7", "6", "159", "7", "6", "4", "35", "8", "139", "1359", "2", "3", "8", "4", "1", "9", "2", "6", "5", "7", "1589", "2", "89", "6", "35", "7", "4", "13589", "2589", "6", "4", "2", "379", "7", "139", "8", "159", "59", "19", "3", "5", "2", "8", "19", "7", "6", "4", "7", "1", "8", "5", "6", "4", "9", "2", "3"]
def c9n8 : Values := sVals ["2", "6", "37", "3789", "4", "5", "39", "389", "1", "89", "5", "37", "37", "1", "6", "2", "4", "89", "4", "89", "1", "389", "2", "39", "5", "7", "6", "159", "7", "6", "4", "35", "8", "139", "1359", "2", "3", "8", "4", "1", "9", "2", "6", "5", "7", "1589", "2", "89", "6", "35", "7", "4", "13589", "2589", "6", "4", "2", "379", "7", "139", "8", "159", "59", "19", "3", "5", "2", "8", "19", "7", "6", "4", "7", "1", "8", "5", "6", "4", "9", "2", "3"]
def c9sbL8 : List Nat := [0, 1, 4, 5, 8, 10, 13, 14, 15, 16, 18, 20, 22, 24, 25, 26, 28, 29, 30, 32, 35, 36, 37, 38, 39, 40, 41, 42, 43, 44, 46, 48, 50, 51, 54, 55, 56, 58, 60, 64, 65, 66, 67, 69, 70, 71, 72, 73, 74, 75, 76, 77, 78, 79, 80]
def c9m8x0 : Values := sVals ["2", "6", "3789", "3789", "4", "5", "39", "389", "1", "89", "5", "3789", "3789", "1", "6", "2", "4", "89", "4", "89", "1", "389", "23", "239", "5", "7", "6", "159", "1279", "6", "4", "2357", "8", "139", "1359", "259", "3", "28", "4", "1", "9", "2", "6", "58", "7", "1589", "12789", "789", "6", "2357", "7", "4", "13589", "2589", "6", "4", "2", "379", "37", "1379", "8", "159", "59", "19", "3", "5", "2", "8", "19", "7", "6", "4", "7", "189", "89", "5", "6", "4", "19", "2", "3"]
def c9m8x1 : Values := sVals ["2", "6", "3789", "3789", "4", "5", "39", "389", "1", "89", "5", "3789", "3789", "1", "6", "2", "4", "89", "4", "89", "1", "389", "23", "39", "5", "7", "6", "159", "1279", "6", "4", "357", "8", "139", "1359", "259", "3", "8", "4", "1", "9", "2", "6", "58", "7", "1589", "12789", "789", "6", "357", "7", "4", "13589", "2589", "6", "4", "2", "379", "37", "1379", "8", "159", "59", "19", "3", "5", "2", "8", "19", "7", "6", "4", "7", "189", "89", "5", "6", "4", "19", "2", "3"]
def c9m8x2 : Values := sVals ["2", "6", "3789", "3789", "4", "5", "39", "389", "1", "89", "5", "3789", "3789", "1", "6", "2", "4", "89", "4", "89", "1", "389", "23", "39", "5", "7", "6", "159", "1279", "6", "4", "35", "8", "139", "1359", "259", "3", "8", "4", "1", "9", "2", "6", "58", "7", "1589", "1289", "89", "6", "35", "7", "4", "13589", "2589", "6", "4", "2", "379", "37", "139", "8", "159", "59", "19", "3", "5", "2", "8", "19", "7", "6", "4", "7", "189", "89", "5", "6", "4", "19", "2", "3"]
def c9e9 : Values := sVals ["2", "6", "37", "3789", "4", "5", "3", "389", "1", "89", "5", "37", "37", "1", "6", "2", "4", "89", "4", "9", "1", "389", "2", "39", "5", "7", "6", "159", "7", "6", "4", "35", "8", "13", "139", "2", "3", "8", "4", "1", "9", "2", "6", "5", "7", "159", "2", "9", "6", "35", "7", "4", "1389", "89", "6", "4", "2", "39", "7", "139", "8", "1", "5", "9", "3", "5", "2", "8", "19", "7", "6", "4", "7", "1", "8", "5", "6", "4", "9", "2", "3"]
def c9o9 : Values := sVals ["2", "6", "37", "3789", "4", "5", "3", "389", "1", "8", "5", "37", "37", "1", "6", "2", "4", "9", "4", "9", "1", "8", "2", "3", "5", "7", "6", "159", "7", "6", "4", "35", "8", "1", "139", "2", "3", "8", "4", "1", "9", "2", "6", "5", "7", "159", "2", "9", "6", "35", "7", "4", "1389", "8", "6", "4", "2", "39", "7", "139", "8", "1", "5", "9", "3", "5", "2", "8", "1", "7", "6", "4", "7", "1", "8", "5", "6", "4", "9", "2", "3"]
def c9n9 : Values := sVals ["2", "6", "37", "3789", "4", "5", "3", "389", "1", "8", "5", "37", "37", "1", "6", "2", "4", "9", "4", "9", "1", "8", "2", "3", "5", "7", "6", "159", "7", "6", "4", "35", "8", "1", "139", "2", "3", "8", "4", "1", "9", "2", "6", "5", "7", "159", "2", "9", "6", "35", "7", "4", "1389", "8", "6", "4", "2", "39", "7", "139", "8", "1", "5", "9", "3", "5", "2", "8", "1", "7", "6", "4", "7", "1", "8", "5", "6", "4", "9", "2", "3"]
def c9sbL9 : List Nat := [0, 1, 4, 5, 6, 8, 9, 10, 13, 14, 15, 16, 17, 18, 19, 20, 21, 22, 23, 24, 25, 26, 28, 29, 30, 32, 33, 35, 36, 37, 38, 39, 40, 41, 42, 43, 44, 46, 47, 48, 50, 51, 53, 54, 55, 56, 58, 60, 61, 62, 63, 64, 65, 66, 67, 68, 69, 70, 71, 72, 73, 74, 75, 76, 77, 78, 79, 80]
def c9m9x0 : Values := sVals ["2", "6", "37", "3789", "4", "5", "39", "389", "1", "89", "5", "37", "37", "1", "6", "2", "4", "89", "4", "89", "1", "389", "2", "39", "5", "7", "6", "159", "7", "6", "4", "35", "8", "139", "1359", "2", "3", "8", "4", "1", "9", "2", "6", "5", "7", "1589", "2", "89", "6", "35", "7", "4", "13589", "2589", "6", "4", "2", "379", "7", "139", "8", "159", "59", "19", "3", "5", "2", "8", "19", "7", "6", "4", "7", "1", "8", "5", "6", "4", "9", "2", "3"]
def c9m9x1 : Values := sVals ["2", "6", "37", "3789", "4", "5", "39", "389", "1", "89", "5", "37", "37", "1", "6", "2", "4", "89", "4", "9", "1", "389", "2", "39", "5", "7", "6", "159", "7", "6", "4", "35", "8", "139", "1359", "2", "3", "8", "4", "1", "9", "2", "6", "5", "7", "159", "2", "9", "6", "35", "7", "4", "13589", "589", "6", "4", "2", "379", "7", "139", "8", "159", "59", "19", "3", "5", "2", "8", "19", "7", "6", "4", "7", "1", "8", "5", "6", "4", "9", "2", "3"]
def c9m9x2 : Values := sVals ["2", "6", "37", "3789", "4", "5", "39", "389", "1", "89", "5", "37", "37", "1", "6", "2", "4", "89", "4", "9", "1", "389", "2", "39", "5", "7", "6", "159", "7", "6", "4", "35", "8", "139", "139", "2", "3", "8", "4", "1", "9", "2", "6", "5", "7", "159", "2", "9", "6", "35", "7", "4", "1389", "89", "6", "4", "2", "379", "7", "139", "8", "19", "59", "19", "3", "5", "2", "8", "19", "7", "6", "4", "7", "1", "8", "5", "6", "4", "9", "2", "3"]
def c9m9x3 : Values := sVals ["2", "6", "37", "3789", "4", "5", "39", "389", "1", "89", "5", "37", "37", "1", "6", "2", "4", "89", "4", "9", "1", "389", "2", "39", "5", "7", "6", "159", "7", "6", "4", "35", "8", "139", "139", "2", "3", "8", "4", "1", "9", "2", "6", "5", "7", "159", "2", "9", "6", "35", "7", "4", "1389", "89", "6", "4", "2", "39", "7", "139", "8", "19", "59", "9", "3", "5", "2", "8", "19", "7", "6", "4", "7", "1", "8", "5", "6", "4", "9", "2", "3"]
def c9e10 : Values := sVals ["2", "6", "7", "79", "4", "5", "3", "8", "1", "8", "5", "37", "7", "1", "6", "2", "4", "9", "4", "9", "1", "8", "2", "3", "5", "7", "6", "5", "7", "6", "4", "35", "8", "1", "39", "2", "3", "8", "4", "1", "9", "2", "6", "5", "7", "15", "2", "9", "6", "35", "7", "4", "3", "8", "6", "4", "2", "39", "7", "9", "8", "1", "5", "9", "3", "5", "2", "8", "1", "7", "6", "4", "7", "1", "8", "5", "6", "4", "9", "2", "3"]
def c9o10 : Values := sVals ["2", "6", "7", "9", "4", "5", "3", "8", "1", "8", "5", "3", "7", "1", "6", "2", "4", "9", "4", "9", "1", "8", "2", "3", "5", "7", "6", "5", "7", "6", "4", "35", "8", "1", "9", "2", "3", "8", "4", "1", "9", "2", "6", "5", "7", "1", "2", "9", "6", "5", "7", "4", "3", "8", "6", "4", "2", "3", "7", "9", "8", "1", "5", "9", "3", "5", "2", "8", "1", "7", "6", "4", "7", "1", "8", "5", "6", "4", "9", "2", "3"]
def c9n10 : Values := sVals ["2", "6", "7", "9", "4", "5", "3", "8", "1", "8", "5", "3", "7", "1", "6", "2", "4", "9", "4", "9", "1", "8", "2", "3", "5", "7", "6", "5", "7", "6", "4", "35", "8", "1", "9", "2", "3", "8", "4", "1", "9", "2", "6", "5", "7", "1", "2", "9", "6", "5", "7", "4", "3", "8", "6", "4", "2", "3", "7", "9", "8", "1", "5", "9", "3", "5", "2", "8", "1", "7", "6", "4", "7", "1", "8", "5", "6", "4", "9", "2", "3"]
def c9sbL10 : List Nat := [0, 1, 2, 3, 4, 5, 6, 7, 8, 9, 10, 11, 12, 13, 14, 15, 16, 17, 18, 19, 20, 21, 22, 23, 24, 25, 26, 27, 28, 29, 30, 32, 33, 34, 35, 36, 37, 38, 39, 40, 41, 42, 43, 44, 45, 46, 47, 48, 49, 50, 51, 52, 53, 54, 55, 56, 57, 58, 59, 60, 61, 62, 63, 64, 65, 66, 67, 68, 69, 70, 71, 72, 73, 74, 75, 76, 77, 78, 79, 80]
def c9m10x0 : Values := sVals ["2", "6", "7", "789", "4", "5", "3", "89", "1", "8", "5", "37", "37", "1", "6", "2", "4", "9", "4", "9", "1", "8", "2", "3", "5", "7", "6", "159", "7", "6", "4", "35", "8", "1", "139", "2", "3", "8", "4", "1", "9", "2", "6", "5", "7", "159", "2", "9", "6", "35", "7", "4", "1389", "8", "6", "4", "2", "39", "7", "139", "8", "1", "5", "9", "3", "5", "2", "8", "1", "7", "6", "4", "7", "1", "8", "5", "6", "4", "9", "2", "3"]
def c9m10x1 : Values := sVals ["2", "6", "7", "79", "4", "5", "3", "8", "1", "8", "5", "37", "7", "1", "6", "2", "4", "9", "4", "9", "1", "8", "2", "3", "5", "7", "6", "159", "7", "6", "4", "35", "8", "1", "139", "2", "3", "8", "4", "1", "9", "2", "6", "5", "7", "159", "2", "9", "6", "35", "7", "4", "1389", "8", "6", "4", "2", "39", "7", "19", "8", "1", "5", "9", "3", "5", "2", "8", "1", "7", "6", "4", "7", "1", "8", "5", "6", "4", "9", "2", "3"]
def c9m10x2 : Values := sVals ["2", "6", "7", "79", "4", "5", "3", "8", "1", "8", "5", "37", "7", "1", "6", "2", "4", "9", "4", "9", "1", "8", "2", "3", "5", "7", "6", "59", "7", "6", "4", "35", "8", "1", "39", "2", "3", "8", "4", "1", "9", "2", "6", "5", "7", "159", "2", "9", "6", "35", "7", "4", "389", "8", "6", "4", "2", "39", "7", "19", "8", "1", "5", "9", "3", "5", "2", "8", "1", "7", "6", "4", "7", "1", "8", "5", "6", "4", "9", "2", "3"]
def c9m10x3 : Values := sVals ["2", "6", "7", "79", "4", "5", "3", "8", "1", "8", "5", "37", "7", "1", "6", "2", "4", "9", "4", "9", "1", "8", "2", "3", "5", "7", "6", "5", "7", "6", "4", "35", "8", "1", "39", "2", "3", "8", "4", "1", "9", "2", "6", "5", "7", "15", "2", "9", "6", "35", "7", "4", "3", "8", "6", "4", "2", "39", "7", "19", "8", "1", "5", "9", "3", "5", "2", "8", "1", "7", "6", "4", "7", "1", "8", "5", "6", "4", "9", "2", "3"]
def c9m10x4 : Values := sVals ["2", "6", "7", "79", "4", "5", "3", "8", "1", "8", "5", "37", "7", "1", "6", "2", "4", "9", "4", "9", "1", "8", "2", "3", "5", "7", "6", "5", "7", "6", "4", "35", "8", "1", "39", "2", "3", "8", "4", "1", "9", "2", "6", "5", "7", "15", "2", "9", "6", "35", "7", "4", "3", "8", "6", "4", "2", "39", "7", "9", "8", "1", "5", "9", "3", "5", "2", "8", "1", "7", "6", "4", "7", "1", "8", "5", "6", "4", "9", "2", "3"]
def c9e11 : Values := sVals ["2", "6", "7", "9", "4", "5", "3", "8", "1", "8", "5", "3", "7", "1", "6", "2", "4", "9", "4", "9", "1", "8", "2", "3", "5", "7", "6", "5", "7", "6", "4", "3", "8", "1", "9", "2", "3", "8", "4", "1", "9", "2", "6", "5", "7", "1", "2", "9", "6", "5", "7", "4", "3", "8", "6", "4", "2", "3", "7", "9", "8", "1", "5", "9", "3", "5", "2", "8", "1", "7", "6", "4", "7", "1", "8", "5", "6", "4", "9", "2", "3"]
def c9m11x0 : Values := sVals ["2", "6", "7", "9", "4", "5", "3", "8", "1", "8", "5", "3", "7", "1", "6", "2", "4", "9", "4", "9", "1", "8", "2", "3", "5", "7", "6", "5", "7", "6", "4", "35", "8", "1", "9", "2", "3", "8", "4", "1", "9", "2", "6", "5", "7", "1", "2", "9", "6", "5", "7", "4", "3", "8", "6", "4", "2", "3", "7", "9", "8", "1", "5", "9", "3", "5", "2", "8", "1", "7", "6", "4", "7", "1", "8", "5", "6", "4", "9", "2", "3"]
def c9m11x1 : Values := sVals ["2", "6", "7", "9", "4", "5", "3", "8", "1", "8", "5", "3", "7", "1", "6", "2", "4", "9", "4", "9", "1", "8", "2", "3", "5", "7", "6", "5", "7", "6", "4", "35", "8", "1", "9", "2", "3", "8", "4", "1", "9", "2", "6", "5", "7", "1", "2", "9", "6", "5", "7", "4", "3", "8", "6", "4", "2", "3", "7", "9", "8", "1", "5", "9", "3", "5", "2", "8", "1", "7", "6", "4", "7", "1", "8", "5", "6", "4", "9", "2", "3"]
def c9m11x2 : Values := sVals ["2", "6", "7", "9", "4", "5", "3", "8", "1", "8", "5", "3", "7", "1", "6", "2", "4", "9", "4", "9", "1", "8", "2", "3", "5", "7", "6", "5", "7", "6", "4", "3", "8", "1", "9", "2", "3", "8", "4", "1", "9", "2", "6", "5", "7", "1", "2", "9", "6", "5", "7", "4", "3", "8", "6", "4", "2", "3", "7", "9", "8", "1", "5", "9", "3", "5", "2", "8", "1", "7", "6", "4", "7", "1", "8", "5", "6", "4", "9", "2", "3"]
def c9m11x3 : Values := sVals ["2", "6", "7", "9", "4", "5", "3", "8", "1", "8", "5", "3", "7", "1", "6", "2", "4", "9", "4", "9", "1", "8", "2", "3", "5", "7", "6", "5", "7", "6", "4", "3", "8", "1", "9", "2", "3", "8", "4", "1", "9", "2", "6", "5", "7", "1", "2", "9", "6", "5", "7", "4", "3", "8", "6", "4", "2", "3", "7", "9", "8", "1", "5", "9", "3", "5", "2", "8", "1", "7", "6", "4", "7", "1", "8", "5", "6", "4", "9", "2", "3"]
def c9m11x4 : Values := sVals ["2", "6", "7", "9", "4", "5", "3", "8", "1", "8", "5", "3", "7", "1", "6", "2", "4", "9", "4", "9", "1", "8", "2", "3", "5", "7", "6", "5", "7", "6", "4", "3", "8", "1", "9", "2", "3", "8", "4", "1", "9", "2", "6", "5", "7", "1", "2", "9", "6", "5", "7", "4", "3", "8", "6", "4", "2", "3", "7", "9", "8", "1", "5", "9", "3", "5", "2", "8", "1", "7", "6", "4", "7", "1", "8", "5", "6", "4", "9", "2", "3"]
def c9m11x5 : Values := sVals ["2", "6", "7", "9", "4", "5", "3", "8", "1", "8", "5", "3", "7", "1", "6", "2", "4", "9", "4", "9", "1", "8", "2", "3", "5", "7", "6", "5", "7", "6", "4", "3", "8", "1", "9", "2", "3", "8", "4", "1", "9", "2", "6", "5", "7", "1", "2", "9", "6", "5", "7", "4", "3", "8", "6", "4", "2", "3", "7", "9", "8", "1", "5", "9", "3", "5", "2", "8", "1", "7", "6", "4", "7", "1", "8", "5", "6", "4", "9", "2", "3"]
/-- C6 counterexample: a state whose stalled round still changes candidates. -/
def c6s0 : Values := sVals ["123456789", "123456789", "123456789", "123456789", "123456789", "123456789", "123456789", "123456789", "123456789", "123456789", "123456789", "123456789", "123456789", "123456789", "123456789", "123456789", "123456789", "123456789", "123456789", "123456789", "123456789", "123456789", "123456789", "123456789", "123456789", "123456789", "123456789", "123456789", "123456789", "123456789", "123456789", "123456789", "123456789", "123456789", "123456789", "123456789", "123456789", "123456789", "123456789", "123456789", "123456789", "123456789", "123456789", "123456789", "123456789", "123456789", "123456789", "123456789", "123456789", "123456789", "123456789", "123456789", "123456789", "123456789", "123456789", "1245", "1245", "123456789", "123456789", "123456789", "123456789", "123456789", "123456789", "123456789", "123456789", "123456789", "123456789", "123456789", "123456789", "123456789", "123456789", "123456789", "12", "12", "123456789", "123456789", "123456789", "123456789", "123456789", "123456789", "123456789"]
/-- The stalled output of reduce_puzzle on c6s0. -/
def c6s1 : Values := sVals ["123456789", "123456789", "123456789", "123456789", "123456789", "123456789", "123456789", "123456789", "123456789", "123456789", "123456789", "123456789", "123456789", "123456789", "123456789", "123456789", "123456789", "123456789", "123456789", "123456789", "123456789", "123456789", "123456789", "123456789", "123456789", "123456789", "123456789", "123456789", "123456789", "123456789", "123456789", "123456789", "123456789", "123456789", "123456789", "123456789", "123456789", "123456789", "123456789", "123456789", "123456789", "123456789", "123456789", "123456789", "123456789", "123456789", "123456789", "123456789", "123456789", "123456789", "123456789", "123456789", "123456789", "123456789", "3456789", "45", "45", "123456789", "123456789", "123456789", "123456789", "123456789", "123456789", "3456789", "3456789", "3456789", "123456789", "123456789", "123456789", "123456789", "123456789", "123456789", "12", "12", "3456789", "3456789", "3456789", "3456789", "3456789", "3456789", "3456789"]
/-- The (different) stalled output of reduce_puzzle on c6s1. -/
def c6s2 : Values := sVals ["123456789", "123456789", "123456789", "123456789", "123456789", "123456789", "123456789", "123456789", "123456789", "123456789", "123456789", "123456789", "123456789", "123456789", "123456789", "123456789", "123456789", "123456789", "123456789", "123456789", "123456789", "123456789", "123456789", "123456789", "123456789", "123456789", "123456789", "123456789", "123456789", "123456789", "123456789", "123456789", "123456789", "123456789", "123456789", "123456789", "123456789", "123456789", "123456789", "123456789", "123456789", "123456789", "123456789", "123456789", "123456789", "123456789", "123456789", "123456789", "123456789", "123456789", "123456789", "123456789", "123456789", "123456789", "36789", "45", "45", "1236789", "1236789", "1236789", "1236789", "1236789", "1236789", "36789", "36789", "36789", "123456789", "123456789", "123456789", "123456789", "123456789", "123456789", "12", "12", "36789", "3456789", "3456789", "3456789", "3456789", "3456789", "3456789"]

/-- C2 counterexample/witness state: the row unit of A1 forces 1, the column unit forces 2. -/
def c2cex : Values := sVals ["12", "23456789", "23456789", "23456789", "23456789", "23456789", "23456789", "23456789", "23456789", "13456789", "123456789", "123456789", "123456789", "123456789", "123456789", "123456789", "123456789", "123456789", "13456789", "123456789", "123456789", "123456789", "123456789", "123456789", "123456789", "123456789", "123456789", "13456789", "123456789", "123456789", "123456789", "123456789", "123456789", "123456789", "123456789", "123456789", "13456789", "123456789", "123456789", "123456789", "123456789", "123456789", "123456789", "123456789", "123456789", "13456789", "123456789", "123456789", "123456789", "123456789", "123456789", "123456789", "123456789", "123456789", "13456789", "123456789", "123456789", "123456789", "123456789", "123456789", "123456789", "123456789", "123456789", "13456789", "123456789", "123456789", "123456789", "123456789", "123456789", "123456789", "123456789", "123456789", "13456789", "123456789", "123456789", "123456789", "123456789", "123456789", "123456789", "123456789", "123456789"]
/-- C3 counterexample state: the A5/B5 twin strips I5 before the I5/I6 twin is reached. -/
def c3cex : Values := sVals ["123456789", "123456789", "123456789", "123456789", "45", "123456789", "123456789", "123456789", "123456789", "123456789", "123456789", "123456789", "123456789", "45", "123456789", "123456789", "123456789", "123456789", "123456789", "123456789", "123456789", "123456789", "123456789", "123456789", "123456789", "123456789", "123456789", "123456789", "123456789", "123456789", "123456789", "123456789", "123456789", "123456789", "123456789", "123456789", "123456789", "123456789", "123456789", "123456789", "123456789", "123456789", "123456789", "123456789", "123456789", "123456789", "123456789", "123456789", "123456789", "123456789", "123456789", "123456789", "123456789", "123456789", "123456789", "123456789", "123456789", "123456789", "123456789", "123456789", "123456789", "123456789", "123456789", "123456789", "123456789", "123456789", "123456789", "123456789", "123456789", "123456789", "123456789", "123456789", "123456789", "123456789", "123456789", "123456789", "47", "47", "123456789", "123456789", "123456789"]
/-- C3 amended-claim witness state: a unique intact twin pair at A1/A2. -/
def c3w : Values := sVals ["12", "12", "123456789", "123456789", "123456789", "123456789", "123456789", "123456789", "123456789", "123456789", "123456789", "123456789", "123456789", "123456789", "123456789", "123456789", "123456789", "123456789", "123456789", "123456789", "123456789", "123456789", "123456789", "123456789", "123456789", "123456789", "123456789", "123456789", "123456789", "123456789", "123456789", "123456789", "123456789", "123456789", "123456789", "123456789", "123456789", "123456789", "123456789", "123456789", "123456789", "123456789", "123456789", "123456789", "123456789", "123456789", "123456789", "123456789", "123456789", "123456789", "123456789", "123456789", "123456789", "123456789", "123456789", "123456789", "123456789", "123456789", "123456789", "123456789", "123456789", "123456789", "123456789", "123456789", "123456789", "123456789", "123456789", "123456789", "123456789", "123456789", "123456789", "123456789", "123456789", "123456789", "123456789", "123456789", "123456789", "123456789", "123456789", "123456789", "123456789"]
/-- C4 witness state: two solved fives in row A; eliminate empties A5. -/
def c4w : Values := sVals ["5", "123456789", "123456789", "123456789", "5", "123456789", "123456789", "123456789", "123456789", "123456789", "123456789", "123456789", "123456789", "123456789", "123456789", "123456789", "123456789", "123456789", "123456789", "123456789", "123456789", "123456789", "123456789", "123456789", "123456789", "123456789", "123456789", "123456789", "123456789", "123456789", "123456789", "123456789", "123456789", "123456789", "123456789", "123456789", "123456789", "123456789", "123456789", "123456789", "123456789", "123456789", "123456789", "123456789", "123456789", "123456789", "123456789", "123456789", "123456789", "123456789", "123456789", "123456789", "123456789", "123456789", "123456789", "123456789", "123456789", "123456789", "123456789", "123456789", "123456789", "123456789", "123456789", "123456789", "123456789", "123456789", "123456789", "123456789", "123456789", "123456789", "123456789", "123456789", "123456789", "123456789", "123456789", "123456789", "123456789", "123456789", "123456789", "123456789", "123456789"]
/-- C5 witness state: the solved diagonal grid, fully assigned and valid. -/
def c5good : Values := sVals ["2", "6", "7", "9", "4", "5", "3", "8", "1", "8", "5", "3", "7", "1", "6", "2", "4", "9", "4", "9", "1", "8", "2", "3", "5", "7", "6", "5", "7", "6", "4", "3", "8", "1", "9", "2", "3", "8", "4", "1", "9", "2", "6", "5", "7", "1", "2", "9", "6", "5", "7", "4", "3", "8", "6", "4", "2", "3", "7", "9", "8", "1", "5", "9", "3", "5", "2", "8", "1", "7", "6", "4", "7", "1", "8", "5", "6", "4", "9", "2", "3"]
/-- C5 rejection state: fully assigned, but A1 and A6 both hold 5. -/
def c5bad : Values := sVals ["5", "6", "7", "9", "4", "5", "3", "8", "1", "8", "5", "3", "7", "1", "6", "2", "4", "9", "4", "9", "1", "8", "2", "3", "5", "7", "6", "5", "7", "6", "4", "3", "8", "1", "9", "2", "3", "8", "4", "1", "9", "2", "6", "5", "7", "1", "2", "9", "6", "5", "7", "4", "3", "8", "6", "4", "2", "3", "7", "9", "8", "1", "5", "9", "3", "5", "2", "8", "1", "7", "6", "4", "7", "1", "8", "5", "6", "4", "9", "2", "3"]
/-- C6 amended-claim witness: a true fixpoint of one propagation round. -/
def c6w : Values := sVals ["12", "12", "3456789", "3456789", "3456789", "3456789", "3456789", "3456789", "3456789", "3456789", "3456789", "3456789", "123456789", "123456789", "123456789", "123456789", "123456789", "123456789", "3456789", "3456789", "3456789", "123456789", "123456789", "123456789", "123456789", "123456789", "123456789", "123456789", "123456789", "123456789", "123456789", "123456789", "123456789", "123456789", "123456789", "123456789", "123456789", "123456789", "123456789", "123456789", "123456789", "123456789", "123456789", "123456789", "123456789", "123456789", "123456789", "123456789", "123456789", "123456789", "123456789", "123456789", "123456789", "123456789", "123456789", "123456789", "123456789", "123456789", "123456789", "123456789", "123456789", "123456789", "123456789", "123456789", "123456789", "123456789", "123456789", "123456789", "123456789", "123456789", "123456789", "123456789", "123456789", "123456789", "123456789", "123456789", "123456789", "123456789", "123456789", "123456789", "123456789"]
/-- C8 witness state: an already-solved valid state. -/
def c8w : Values := sVals ["2", "6", "7", "9", "4", "5", "3", "8", "1", "8", "5", "3", "7", "1", "6", "2", "4", "9", "4", "9", "1", "8", "2", "3", "5", "7", "6", "5", "7", "6", "4", "3", "8", "1", "9", "2", "3", "8", "4", "1", "9", "2", "6", "5", "7", "1", "2", "9", "6", "5", "7", "4", "3", "8", "6", "4", "2", "3", "7", "9", "8", "1", "5", "9", "3", "5", "2", "8", "1", "7", "6", "4", "7", "1", "8", "5", "6", "4", "9", "2", "3"]


/-! ### Theorems. -/

/-- The stored peer-unit table is exactly what `SudokuBoard.__init__` computes:
for each box, each unit containing it with the box itself removed. -/
theorem unit_peers_map_eq :
    unit_peers_map = (List.range 81).map (fun b =>
      (units.filter (fun u => u.contains b)).map (fun u => u.filter (fun p => p != b))) := by
  decide!

/-- The stored all-peers table is exactly the per-box set of all unit peers. -/
theorem all_peers_map_eq :
    all_peers_map = (List.range 81).map (fun b => dedupFirst (unit_peers b).flatten) := by
  decide!

/-- Pointwise shrinkage between candidate states: same number of boxes, and
every box's value string in `w` is a sublist of its value string in `v`. -/
def Shrinks (w v : Values) : Prop :=
  w.length = v.length ∧ ∀ b : Nat, (w.getD b []).Sublist (v.getD b [])

theorem shrinks_refl (v : Values) : Shrinks v v :=
  ⟨rfl, fun _ => List.Sublist.refl _⟩

theorem shrinks_trans {u w v : Values} (h1 : Shrinks u w) (h2 : Shrinks w v) : Shrinks u v :=
  ⟨h1.1.trans h2.1, fun b => (h1.2 b).trans (h2.2 b)⟩

theorem getD_set_self {v : Values} {b : Nat} {x : Value} (h : b < v.length) :
    (v.set b x).getD b [] = x := by
  rw [List.getD_eq_getElem?_getD, List.getElem?_set_self h, Option.getD_some]

theorem getD_set_ne {v : Values} {b p : Nat} {x : Value} (h : b ≠ p) :
    (v.set b x).getD p [] = v.getD p [] := by
  rw [List.getD_eq_getElem?_getD, List.getElem?_set_ne h, ← List.getD_eq_getElem?_getD]

theorem shrinks_set {v : Values} {b : Nat} {x : Value}
    (hx : x.Sublist (v.getD b [])) : Shrinks (v.set b x) v := by
  refine ⟨List.length_set .., fun p => ?_⟩
  by_cases hb : b = p
  · subst hb
    by_cases hlt : b < v.length
    · rw [getD_set_self hlt]; exact hx
    · rw [List.set_eq_of_length_le (Nat.le_of_not_lt hlt)]
  · rw [getD_set_ne hb]

theorem shrinks_assign {v : Values} {b : Nat} {x : Value}
    (hx : x.Sublist (v.getD b [])) : Shrinks (assign_value v b x) v := by
  unfold assign_value
  split
  · exact shrinks_refl v
  · exact shrinks_set hx

theorem shrinks_foldl {α : Type} {f : Values → α → Values}
    (h : ∀ w a, Shrinks (f w a) w) :
    ∀ (l : List α) (v : Values), Shrinks (l.foldl f v) v := by
  intro l
  induction l with
  | nil => exact fun v => shrinks_refl v
  | cons a t ih => exact fun v => shrinks_trans (ih (f v a)) (h v a)

theorem pyReplaceGo_sublist : ∀ (fuel : Nat) (s old : List Char),
    (pyReplaceGo fuel s old).Sublist s := by
  intro fuel
  induction fuel with
  | zero =>
    intro s old
    cases s with
    | nil => exact List.Sublist.refl _
    | cons c s1 => exact List.Sublist.refl _
  | succ n ih =>
    intro s old
    cases s with
    | nil => exact List.Sublist.refl _
    | cons c s1 =>
      rw [pyReplaceGo]
      split
      · exact (ih _ _).trans (List.drop_sublist _ _)
      · exact List.Sublist.cons₂ c (ih s1 old)

theorem pyReplace_sublist (s old : List Char) : (pyReplace s old).Sublist s := by
  unfold pyReplace
  split
  · exact List.Sublist.refl _
  · exact pyReplaceGo_sublist _ _ _

theorem shrinks_eliminate_peer (s : Nat) (w : Values) (p : Nat) :
    Shrinks (eliminate_peer s w p) w :=
  shrinks_assign (pyReplace_sublist _ _)

theorem shrinks_eliminate_box (w : Values) (s : Nat) : Shrinks (eliminate_box w s) w :=
  shrinks_foldl (shrinks_eliminate_peer s) _ w

theorem shrinks_eliminate (v : Values) : Shrinks (eliminate v) v :=
  shrinks_foldl shrinks_eliminate_box _ v

theorem shrinks_only_choice_box (w : Values) (b : Nat) : Shrinks (only_choice_box w b) w := by
  unfold only_choice_box
  dsimp only
  split
  case h_1 c heq =>
    obtain ⟨u, _, hu⟩ := List.exists_of_findSome?_eq_some heq
    exact shrinks_assign (List.singleton_sublist.mpr (List.mem_of_find?_eq_some hu))
  case h_2 => exact shrinks_refl w

theorem shrinks_only_choice (v : Values) : Shrinks (only_choice v) v :=
  shrinks_foldl shrinks_only_choice_box _ v

theorem shrinks_rc_step (choices : Value) (ntp : Nat) (w2 : Values) (c : Char) :
    Shrinks (rc_step choices ntp w2 c) w2 := by
  unfold rc_step
  split
  · exact shrinks_assign (pyReplace_sublist _ _)
  · exact shrinks_refl w2

theorem shrinks_remove_choices (w : Values) (choices : Value) (ntp : Nat) :
    Shrinks (remove_choices w choices ntp) w :=
  shrinks_foldl (shrinks_rc_step choices ntp) _ w

theorem shrinks_nt_remove_step (choices : Value) (peer : Nat) (w2 : Values) (ntp : Nat) :
    Shrinks (nt_remove_step choices peer w2 ntp) w2 := by
  unfold nt_remove_step
  split
  · exact shrinks_refl w2
  · exact shrinks_remove_choices w2 _ ntp

theorem shrinks_nt_peer_step (choices : Value) (u : List Nat) (wp : Values) (peer : Nat) :
    Shrinks (nt_peer_step choices u wp peer) wp := by
  unfold nt_peer_step
  split
  · exact shrinks_foldl (shrinks_nt_remove_step choices peer) _ wp
  · exact shrinks_refl wp

theorem shrinks_nt_unit_step (choices : Value) (wu : Values) (u : List Nat) :
    Shrinks (nt_unit_step choices wu u) wu :=
  shrinks_foldl (shrinks_nt_peer_step choices u) _ wu

theorem shrinks_naked_twins_box (w : Values) (box : Nat) : Shrinks (naked_twins_box w box) w := by
  unfold naked_twins_box
  dsimp only
  split
  · exact shrinks_refl w
  · exact shrinks_foldl (shrinks_nt_unit_step _) _ w

theorem shrinks_naked_twins (v : Values) : Shrinks (naked_twins v) v :=
  shrinks_foldl shrinks_naked_twins_box _ v

/-- C1 (invariants): monotonic shrinkage.  For every candidate state and every
box, one application of any of the three propagation rules (`eliminate`,
`only_choice`, `naked_twins`) leaves the box's candidate set a subset (in fact
a sublist) of its candidate set in the input state. -/
theorem C1_monotonic_shrinkage (v : Values) (b : Nat) :
    ((eliminate v).getD b []).Sublist (v.getD b []) ∧
    ((only_choice v).getD b []).Sublist (v.getD b []) ∧
    ((naked_twins v).getD b []).Sublist (v.getD b []) :=
  ⟨(shrinks_eliminate v).2 b, (shrinks_only_choice v).2 b, (shrinks_naked_twins v).2 b⟩

theorem reduce_loop_round (fuel : Nat) (sbb sba : List Nat) (v v1 v2 v3 : Values)
    (h1 : eliminate v = v1) (hc1 : check_complete v1 = (false, some v1))
    (h2 : only_choice v1 = v2) (hc2 : check_complete v2 = (false, some v2))
    (h3 : naked_twins v2 = v3) (hc3 : check_complete v3 = (false, some v3))
    (hinv : invalid_boxes v3 = false) (hsba : solved_boxes v3 = sba) (hne : sbb ≠ sba) :
    reduce_loop (fuel + 1) sbb v = reduce_loop fuel sba v3 := by
  rw [reduce_loop]
  simp only [h1, hc1, h2, hc2, h3, hc3, hsba, hinv]
  simp [hne]

theorem reduce_loop_last (fuel : Nat) (sbb : List Nat) (v v1 : Values)
    (h1 : eliminate v = v1) (hc1 : check_complete v1 = (true, some v1)) :
    reduce_loop (fuel + 1) sbb v = some v1 := by
  rw [reduce_loop]
  simp only [h1, hc1]
  simp

theorem invalid_boxes_of_empty {v : Values} (h : boxes_with_value_len v 0 ≠ []) :
    invalid_boxes v = true := by
  unfold invalid_boxes
  rw [if_pos h]

theorem check_complete_of_invalid {v : Values} (h : invalid_boxes v = true) :
    check_complete v = (false, none) := by
  unfold check_complete
  simp [h]

theorem check_complete_incomplete {v : Values} (hinv : invalid_boxes v = false)
    (hcnt : solved_count v ≠ 81) : check_complete v = (false, some v) := by
  unfold check_complete
  simp [hinv, hcnt]

theorem length_eliminate (v : Values) : (eliminate v).length = v.length :=
  (shrinks_eliminate v).1

theorem length_only_choice (v : Values) : (only_choice v).length = v.length :=
  (shrinks_only_choice v).1

theorem length_naked_twins (v : Values) : (naked_twins v).length = v.length :=
  (shrinks_naked_twins v).1

theorem unsolved_boxes_eq_nil_of_complete {v : Values} (hlen : v.length = 81)
    (hcnt : solved_count v = 81) : unsolved_boxes v = [] := by
  have hall : ∀ i ∈ List.range v.length, ((v.getD i []).length == 1) = true := by
    rw [← List.countP_eq_length]
    have : (boxes_with_value_len v 1).length = 81 := hcnt
    rw [boxes_with_value_len, ← List.countP_eq_length_filter] at this
    rw [this, List.length_range, hlen]
  rw [unsolved_boxes, List.filter_eq_nil_iff]
  intro i hi
  have h1 : (v.getD i []).length = 1 := by
    have := hall i hi
    rwa [beq_iff_eq] at this
  simp only [decide_eq_true_eq, not_lt]
  omega

theorem only_choice_fix_of_complete {v : Values} (hlen : v.length = 81)
    (hcnt : solved_count v = 81) : only_choice v = v := by
  unfold only_choice
  rw [unsolved_boxes_eq_nil_of_complete hlen hcnt]
  rfl

theorem naked_twins_fix_of_complete {v : Values} (hlen : v.length = 81)
    (hcnt : solved_count v = 81) : naked_twins v = v := by
  unfold naked_twins
  rw [unsolved_boxes_eq_nil_of_complete hlen hcnt]
  rfl

theorem reduce_loop_none_of_invalid (v : Values) (sbb : List Nat) (fuel : Nat)
    (hlen : v.length = 81)
    (h : invalid_boxes (eliminate v) = true ∨
         invalid_boxes (only_choice (eliminate v)) = true ∨
         invalid_boxes (naked_twins (only_choice (eliminate v))) = true) :
    reduce_loop (fuel + 1) sbb v = none := by
  rw [reduce_loop]
  by_cases h1 : invalid_boxes (eliminate v) = true
  · have hc1 := check_complete_of_invalid h1
    simp [hc1]
  · have h1f : invalid_boxes (eliminate v) = false := by
      revert h1; cases invalid_boxes (eliminate v) <;> simp
    have hcnt1 : solved_count (eliminate v) ≠ 81 := by
      intro hcnt
      have hfix := only_choice_fix_of_complete (hlen ▸ length_eliminate v) hcnt
      have hfix2 := naked_twins_fix_of_complete (hlen ▸ length_eliminate v) hcnt
      rcases h with h | h | h
      · exact absurd h (by simp [h1f])
      · rw [hfix] at h
        exact absurd h (by simp [h1f])
      · rw [hfix, hfix2] at h
        exact absurd h (by simp [h1f])
    have hc1 := check_complete_incomplete h1f hcnt1
    simp only [hc1]
    by_cases h2 : invalid_boxes (only_choice (eliminate v)) = true
    · have hc2 := check_complete_of_invalid h2
      simp [hc2]
    · have h2f : invalid_boxes (only_choice (eliminate v)) = false := by
        revert h2; cases invalid_boxes (only_choice (eliminate v)) <;> simp
      have hlen2 : (only_choice (eliminate v)).length = 81 := by
        rw [length_only_choice, length_eliminate, hlen]
      have hcnt2 : solved_count (only_choice (eliminate v)) ≠ 81 := by
        intro hcnt
        have hfix := naked_twins_fix_of_complete hlen2 hcnt
        rcases h with h | h | h
        · exact absurd h (by simp [h1f])
        · exact absurd h (by simp [h2f])
        · rw [hfix] at h
          exact absurd h (by simp [h2f])
      have hc2 := check_complete_incomplete h2f hcnt2
      simp only [hc2]
      have h3 : invalid_boxes (naked_twins (only_choice (eliminate v))) = true := by
        rcases h with h | h | h
        · exact absurd h (by simp [h1f])
        · exact absurd h (by simp [h2f])
        · exact h
      have hc3 := check_complete_of_invalid h3
      simp [hc3]

/-- C4 (error handling): contradiction fail-fast.  If any rule application in
a round of `reduce_puzzle` produces a state with an empty-valued box
(`invalid_boxes`, checked via `check_complete` after each of the three rules),
the driver returns the failure value (`none`, modelling Python's `False`) —
both for an arbitrary round of the loop and for `reduce_puzzle` itself. -/
theorem C4_contradiction_failfast (v : Values) (sbb : List Nat) (fuel : Nat)
    (hlen : v.length = 81)
    (h : invalid_boxes (eliminate v) = true ∨
         invalid_boxes (only_choice (eliminate v)) = true ∨
         invalid_boxes (naked_twins (only_choice (eliminate v))) = true) :
    reduce_loop (fuel + 1) sbb v = none ∧ reduce_puzzle v = none := by
  refine ⟨reduce_loop_none_of_invalid v sbb fuel hlen h, ?_⟩
  show reduce_loop (81 + 1) (solved_boxes v) v = none
  exact reduce_loop_none_of_invalid v (solved_boxes v) 81 hlen h

/-- Closed witness for C4: the state with `A1 = A5 = '5'` loses all candidates
at `A5` during `eliminate`, and `reduce_puzzle` returns the failure value. -/
theorem C4_contradiction_failfast_witness :
    c4w.length = 81 ∧ invalid_boxes (eliminate c4w) = true ∧ reduce_puzzle c4w = none :=
  ⟨by decide!, by decide!,
    (C4_contradiction_failfast c4w [] 0 (by decide!) (Or.inl (by decide!))).2⟩

theorem values_ext {w v : Values} (hlen : w.length = v.length)
    (h : ∀ b, w.getD b [] = v.getD b []) : w = v := by
  refine List.ext_getElem hlen (fun i h1 h2 => ?_)
  have := h i
  rwa [List.getD_eq_getElem w [] h1, List.getD_eq_getElem v [] h2] at this

theorem round_fix_parts {v : Values}
    (hfix : naked_twins (only_choice (eliminate v)) = v) :
    eliminate v = v ∧ only_choice v = v ∧ naked_twins v = v := by
  have s1 := shrinks_eliminate v
  have s2 := shrinks_only_choice (eliminate v)
  have s3 := shrinks_naked_twins (only_choice (eliminate v))
  have he : eliminate v = v := by
    refine values_ext s1.1 (fun b => ?_)
    refine List.Sublist.antisymm (s1.2 b) ?_
    have h3b := s3.2 b
    rw [hfix] at h3b
    exact h3b.trans (s2.2 b)
  have ho : only_choice v = v := by
    rw [he] at s2 s3 hfix
    refine values_ext s2.1 (fun b => ?_)
    refine List.Sublist.antisymm (s2.2 b) ?_
    have h3b := s3.2 b
    rw [hfix] at h3b
    exact h3b
  have hn : naked_twins v = v := by
    rw [he, ho] at hfix
    exact hfix
  exact ⟨he, ho, hn⟩

theorem reduce_loop_stalled (fuel : Nat) (sbb : List Nat) (v v1 v2 v3 : Values)
    (h1 : eliminate v = v1) (hc1 : check_complete v1 = (false, some v1))
    (h2 : only_choice v1 = v2) (hc2 : check_complete v2 = (false, some v2))
    (h3 : naked_twins v2 = v3) (hc3 : check_complete v3 = (false, some v3))
    (hinv : invalid_boxes v3 = false) (hsb : solved_boxes v3 = sbb) :
    reduce_loop (fuel + 1) sbb v = some v3 := by
  rw [reduce_loop]
  simp only [h1, hc1, h2, hc2, h3, hc3, hsb, hinv]
  simp

/-- C6 (amended): idempotence of the fixpoint driver holds for true round
fixpoints.  If a state with 81 boxes, no empty-valued box and not all boxes
solved is left unchanged by one full propagation round
(`naked_twins (only_choice (eliminate v)) = v`), then `reduce_puzzle` returns
it unchanged.  (The unamended claim fails: the driver declares Stalled by
comparing solved-box lists only, so its result need not be a round fixpoint —
see the counterexample.) -/
theorem C6_idempotence_amended (v : Values) (hlen : v.length = 81)
    (hinv : invalid_boxes v = false) (hcnt : solved_count v ≠ 81)
    (hfix : naked_twins (only_choice (eliminate v)) = v) :
    reduce_puzzle v = some v := by
  obtain ⟨he, ho, hn⟩ := round_fix_parts hfix
  have hc := check_complete_incomplete hinv hcnt
  show reduce_loop (81 + 1) (solved_boxes v) v = some v
  exact reduce_loop_stalled 81 (solved_boxes v) v v v v he hc ho hc hn hc hinv rfl

/-- Closed witness for the amended C6: the twin-pair fixpoint state `c6w` is
returned unchanged by `reduce_puzzle`. -/
theorem C6_idempotence_amended_witness : reduce_puzzle c6w = some c6w :=
  C6_idempotence_amended c6w (by decide!) (by decide!) (by decide!) (by decide!)

theorem c9_parse : grid_values diagGrid = c9s0 := by decide!

theorem c9sb_s0 : solved_boxes c9s0 = c9sbL0 := by decide!

theorem c9elim1 : eliminate c9s0 = c9e1 := by
  have h0 : List.foldl eliminate_box c9s0 [0, 14, 15, 20, 25, 29, 32, 36, 40, 44, 48, 51] = c9m1x0 := by decide!
  have h1 : List.foldl eliminate_box c9m1x0 [55, 60, 65, 66, 80] = c9e1 := by decide!
  unfold eliminate
  rw [c9sb_s0]
  rw [show c9sbL0 = [0, 14, 15, 20, 25, 29, 32, 36, 40, 44, 48, 51] ++ ([55, 60, 65, 66, 80]) from rfl]
  rw [List.foldl_append, h0, h1]

theorem c9oc1 : only_choice c9e1 = c9o1 := by decide!
theorem c9nt1 : naked_twins c9o1 = c9n1 := by decide!
theorem c9ck_e1 : check_complete c9e1 = (false, some c9e1) := by decide!
theorem c9ck_o1 : check_complete c9o1 = (false, some c9o1) := by decide!
theorem c9ck_n1 : check_complete c9n1 = (false, some c9n1) := by decide!
theorem c9inv1 : invalid_boxes c9n1 = false := by decide!
theorem c9sb_n1 : solved_boxes c9n1 = c9sbL1 := by decide!

theorem c9elim2 : eliminate c9n1 = c9e2 := by
  have h0 : List.foldl eliminate_box c9n1 [0, 14, 15, 20, 25, 29, 30, 32, 36, 40, 44, 48] = c9m2x0 := by decide!
  have h1 : List.foldl eliminate_box c9m2x0 [51, 55, 56, 60, 64, 65, 66, 70, 72, 80] = c9e2 := by decide!
  unfold eliminate
  rw [c9sb_n1]
  rw [show c9sbL1 = [0, 14, 15, 20, 25, 29, 30, 32, 36, 40, 44, 48] ++ ([51, 55, 56, 60, 64, 65, 66, 70, 72, 80]) from rfl]
  rw [List.foldl_append, h0, h1]

theorem c9oc2 : only_choice c9e2 = c9o2 := by decide!
theorem c9nt2 : naked_twins c9o2 = c9n2 := by decide!
theorem c9ck_e2 : check_complete c9e2 = (false, some c9e2) := by decide!
theorem c9ck_o2 : check_complete c9o2 = (false, some c9o2) := by decide!
theorem c9ck_n2 : check_complete c9n2 = (false, some c9n2) := by decide!
theorem c9inv2 : invalid_boxes c9n2 = false := by decide!
theorem c9sb_n2 : solved_boxes c9n2 = c9sbL2 := by decide!

theorem c9elim3 : eliminate c9n2 = c9e3 := by
  have h0 : List.foldl eliminate_box c9n2 [0, 14, 15, 20, 24, 25, 26, 29, 30, 32, 36, 38] = c9m3x0 := by decide!
  have h1 : List.foldl eliminate_box c9m3x0 [40, 42, 44, 48, 51, 55, 56, 60, 64, 65, 66, 69] = c9m3x1 := by decide!
  have h2 : List.foldl eliminate_box c9m3x1 [70, 72, 79, 80] = c9e3 := by decide!
  unfold eliminate
  rw [c9sb_n2]
  rw [show c9sbL2 = [0, 14, 15, 20, 24, 25, 26, 29, 30, 32, 36, 38] ++ ([40, 42, 44, 48, 51, 55, 56, 60, 64, 65, 66, 69] ++ ([70, 72, 79, 80])) from rfl]
  rw [List.foldl_append, h0, List.foldl_append, h1, h2]

theorem c9oc3 : only_choice c9e3 = c9o3 := by decide!
theorem c9nt3 : naked_twins c9o3 = c9n3 := by decide!
theorem c9ck_e3 : check_complete c9e3 = (false, some c9e3) := by decide!
theorem c9ck_o3 : check_complete c9o3 = (false, some c9o3) := by decide!
theorem c9ck_n3 : check_complete c9n3 = (false, some c9n3) := by decide!
theorem c9inv3 : invalid_boxes c9n3 = false := by decide!
theorem c9sb_n3 : solved_boxes c9n3 = c9sbL3 := by decide!

theorem c9elim4 : eliminate c9n3 = c9e4 := by
  have h0 : List.foldl eliminate_box c9n3 [0, 1, 14, 15, 20, 24, 25, 26, 29, 30, 32, 36] = c9m4x0 := by decide!
  have h1 : List.foldl eliminate_box c9m4x0 [38, 40, 42, 44, 48, 51, 54, 55, 56, 60, 64, 65] = c9m4x1 := by decide!
  have h2 : List.foldl eliminate_box c9m4x1 [66, 69, 70, 71, 72, 79, 80] = c9e4 := by decide!
  unfold eliminate
  rw [c9sb_n3]
  rw [show c9sbL3 = [0, 1, 14, 15, 20, 24, 25, 26, 29, 30, 32, 36] ++ ([38, 40, 42, 44, 48, 51, 54, 55, 56, 60, 64, 65] ++ ([66, 69, 70, 71, 72, 79, 80])) from rfl]
  rw [List.foldl_append, h0, List.foldl_append, h1, h2]

theorem c9oc4 : only_choice c9e4 = c9o4 := by decide!
theorem c9nt4 : naked_twins c9o4 = c9n4 := by decide!
theorem c9ck_e4 : check_complete c9e4 = (false, some c9e4) := by decide!
theorem c9ck_o4 : check_complete c9o4 = (false, some c9o4) := by decide!
theorem c9ck_n4 : check_complete c9n4 = (false, some c9n4) := by decide!
theorem c9inv4 : invalid_boxes c9n4 = false := by decide!
theorem c9sb_n4 : solved_boxes c9n4 = c9sbL4 := by decide!

theorem c9elim5 : eliminate c9n4 = c9e5 := by
  have h0 : List.foldl eliminate_box c9n4 [0, 1, 8, 14, 15, 16, 20, 24, 25, 26, 29, 30] = c9m5x0 := by decide!
  have h1 : List.foldl eliminate_box c9m5x0 [32, 36, 38, 40, 42, 44, 48, 51, 54, 55, 56, 60] = c9m5x1 := by decide!
  have h2 : List.foldl eliminate_box c9m5x1 [64, 65, 66, 69, 70, 71, 72, 76, 77, 79, 80] = c9e5 := by decide!
  unfold eliminate
  rw [c9sb_n4]
  rw [show c9sbL4 = [0, 1, 8, 14, 15, 16, 20, 24, 25, 26, 29, 30] ++ ([32, 36, 38, 40, 42, 44, 48, 51, 54, 55, 56, 60] ++ ([64, 65, 66, 69, 70, 71, 72, 76, 77, 79, 80])) from rfl]
  rw [List.foldl_append, h0, List.foldl_append, h1, h2]

theorem c9oc5 : only_choice c9e5 = c9o5 := by decide!
theorem c9nt5 : naked_twins c9o5 = c9n5 := by decide!
theorem c9ck_e5 : check_complete c9e5 = (false, some c9e5) := by decide!
theorem c9ck_o5 : check_complete c9o5 = (false, some c9o5) := by decide!
theorem c9ck_n5 : check_complete c9n5 = (false, some c9n5) := by decide!
theorem c9inv5 : invalid_boxes c9n5 = false := by decide!
theorem c9sb_n5 : solved_boxes c9n5 = c9sbL5 := by decide!

theorem c9elim6 : eliminate c9n5 = c9e6 := by
  have h0 : List.foldl eliminate_box c9n5 [0, 1, 4, 8, 14, 15, 16, 18, 20, 24, 25, 26] = c9m6x0 := by decide!
  have h1 : List.foldl eliminate_box c9m6x0 [29, 30, 32, 36, 38, 40, 42, 44, 48, 51, 54, 55] = c9m6x1 := by decide!
  have h2 : List.foldl eliminate_box c9m6x1 [56, 60, 64, 65, 66, 69, 70, 71, 72, 75, 76, 77] = c9m6x2 := by decide!
  have h3 : List.foldl eliminate_box c9m6x2 [79, 80] = c9e6 := by decide!
  unfold eliminate
  rw [c9sb_n5]
  rw [show c9sbL5 = [0, 1, 4, 8, 14, 15, 16, 18, 20, 24, 25, 26] ++ ([29, 30, 32, 36, 38, 40, 42, 44, 48, 51, 54, 55] ++ ([56, 60, 64, 65, 66, 69, 70, 71, 72, 75, 76, 77] ++ ([79, 80]))) from rfl]
  rw [List.foldl_append, h0, List.foldl_append, h1, List.foldl_append, h2, h3]

theorem c9oc6 : only_choice c9e6 = c9o6 := by decide!
theorem c9nt6 : naked_twins c9o6 = c9n6 := by decide!
theorem c9ck_e6 : check_complete c9e6 = (false, some c9e6) := by decide!
theorem c9ck_o6 : check_complete c9o6 = (false, some c9o6) := by decide!
theorem c9ck_n6 : check_complete c9n6 = (false, some c9n6) := by decide!
theorem c9inv6 : invalid_boxes c9n6 = false := by decide!
theorem c9sb_n6 : solved_boxes c9n6 = c9sbL6 := by decide!

theorem c9elim7 : eliminate c9n6 = c9e7 := by
  have h0 : List.foldl eliminate_box c9n6 [0, 1, 4, 5, 8, 14, 15, 16, 18, 20, 24, 25] = c9m7x0 := by decide!
  have h1 : List.foldl eliminate_box c9m7x0 [26, 29, 30, 32, 36, 38, 39, 40, 42, 44, 48, 51] = c9m7x1 := by decide!
  have h2 : List.foldl eliminate_box c9m7x1 [54, 55, 56, 60, 64, 65, 66, 67, 69, 70, 71, 72] = c9m7x2 := by decide!
  have h3 : List.foldl eliminate_box c9m7x2 [75, 76, 77, 79, 80] = c9e7 := by decide!
  unfold eliminate
  rw [c9sb_n6]
  rw [show c9sbL6 = [0, 1, 4, 5, 8, 14, 15, 16, 18, 20, 24, 25] ++ ([26, 29, 30, 32, 36, 38, 39, 40, 42, 44, 48, 51] ++ ([54, 55, 56, 60, 64, 65, 66, 67, 69, 70, 71, 72] ++ ([75, 76, 77, 79, 80]))) from rfl]
  rw [List.foldl_append, h0, List.foldl_append, h1, List.foldl_append, h2, h3]

theorem c9oc7 : only_choice c9e7 = c9o7 := by decide!
theorem c9nt7 : naked_twins c9o7 = c9n7 := by decide!
theorem c9ck_e7 : check_complete c9e7 = (false, some c9e7) := by decide!
theorem c9ck_o7 : check_complete c9o7 = (false, some c9o7) := by decide!
theorem c9ck_n7 : check_complete c9n7 = (false, some c9n7) := by decide!
theorem c9inv7 : invalid_boxes c9n7 = false := by decide!
theorem c9sb_n7 : solved_boxes c9n7 = c9sbL7 := by decide!

theorem c9elim8 : eliminate c9n7 = c9e8 := by
  have h0 : List.foldl eliminate_box c9n7 [0, 1, 4, 5, 8, 10, 13, 14, 15, 16, 18, 20] = c9m8x0 := by decide!
  have h1 : List.foldl eliminate_box c9m8x0 [24, 25, 26, 29, 30, 32, 36, 38, 39, 40, 41, 42] = c9m8x1 := by decide!
  have h2 : List.foldl eliminate_box c9m8x1 [44, 48, 50, 51, 54, 55, 56, 60, 64, 65, 66, 67] = c9m8x2 := by decide!
  have h3 : List.foldl eliminate_box c9m8x2 [69, 70, 71, 72, 75, 76, 77, 79, 80] = c9e8 := by decide!
  unfold eliminate
  rw [c9sb_n7]
  rw [show c9sbL7 = [0, 1, 4, 5, 8, 10, 13, 14, 15, 16, 18, 20] ++ ([24, 25, 26, 29, 30, 32, 36, 38, 39, 40, 41, 42] ++ ([44, 48, 50, 51, 54, 55, 56, 60, 64, 65, 66, 67] ++ ([69, 70, 71, 72, 75, 76, 77, 79, 80]))) from rfl]
  rw [List.foldl_append, h0, List.foldl_append, h1, List.foldl_append, h2, h3]

theorem c9oc8 : only_choice c9e8 = c9o8 := by decide!
theorem c9nt8 : naked_twins c9o8 = c9n8 := by decide!
theorem c9ck_e8 : check_complete c9e8 = (false, some c9e8) := by decide!
theorem c9ck_o8 : check_complete c9o8 = (false, some c9o8) := by decide!
theorem c9ck_n8 : check_complete c9n8 = (false, some c9n8) := by decide!
theorem c9inv8 : invalid_boxes c9n8 = false := by decide!
theorem c9sb_n8 : solved_boxes c9n8 = c9sbL8 := by decide!

theorem c9elim9 : eliminate c9n8 = c9e9 := by
  have h0 : List.foldl eliminate_box c9n8 [0, 1, 4, 5, 8, 10, 13, 14, 15, 16, 18, 20] = c9m9x0 := by decide!
  have h1 : List.foldl eliminate_box c9m9x0 [22, 24, 25, 26, 28, 29, 30, 32, 35, 36, 37, 38] = c9m9x1 := by decide!
  have h2 : List.foldl eliminate_box c9m9x1 [39, 40, 41, 42, 43, 44, 46, 48, 50, 51, 54, 55] = c9m9x2 := by decide!
  have h3 : List.foldl eliminate_box c9m9x2 [56, 58, 60, 64, 65, 66, 67, 69, 70, 71, 72, 73] = c9m9x3 := by decide!
  have h4 : List.foldl eliminate_box c9m9x3 [74, 75, 76, 77, 78, 79, 80] = c9e9 := by decide!
  unfold eliminate
  rw [c9sb_n8]
  rw [show c9sbL8 = [0, 1, 4, 5, 8, 10, 13, 14, 15, 16, 18, 20] ++ ([22, 24, 25, 26, 28, 29, 30, 32, 35, 36, 37, 38] ++ ([39, 40, 41, 42, 43, 44, 46, 48, 50, 51, 54, 55] ++ ([56, 58, 60, 64, 65, 66, 67, 69, 70, 71, 72, 73] ++ ([74, 75, 76, 77, 78, 79, 80])))) from rfl]
  rw [List.foldl_append, h0, List.foldl_append, h1, List.foldl_append, h2, List.foldl_append, h3, h4]

theorem c9oc9 : only_choice c9e9 = c9o9 := by decide!
theorem c9nt9 : naked_twins c9o9 = c9n9 := by decide!
theorem c9ck_e9 : check_complete c9e9 = (false, some c9e9) := by decide!
theorem c9ck_o9 : check_complete c9o9 = (false, some c9o9) := by decide!
theorem c9ck_n9 : check_complete c9n9 = (false, some c9n9) := by decide!
theorem c9inv9 : invalid_boxes c9n9 = false := by decide!
theorem c9sb_n9 : solved_boxes c9n9 = c9sbL9 := by decide!

theorem c9elim10 : eliminate c9n9 = c9e10 := by
  have h0 : List.foldl eliminate_box c9n9 [0, 1, 4, 5, 6, 8, 9, 10, 13, 14, 15, 16] = c9m10x0 := by decide!
  have h1 : List.foldl eliminate_box c9m10x0 [17, 18, 19, 20, 21, 22, 23, 24, 25, 26, 28, 29] = c9m10x1 := by decide!
  have h2 : List.foldl eliminate_box c9m10x1 [30, 32, 33, 35, 36, 37, 38, 39, 40, 41, 42, 43] = c9m10x2 := by decide!
  have h3 : List.foldl eliminate_box c9m10x2 [44, 46, 47, 48, 50, 51, 53, 54, 55, 56, 58, 60] = c9m10x3 := by decide!
  have h4 : List.foldl eliminate_box c9m10x3 [61, 62, 63, 64, 65, 66, 67, 68, 69, 70, 71, 72] = c9m10x4 := by decide!
  have h5 : List.foldl eliminate_box c9m10x4 [73, 74, 75, 76, 77, 78, 79, 80] = c9e10 := by decide!
  unfold eliminate
  rw [c9sb_n9]
  rw [show c9sbL9 = [0, 1, 4, 5, 6, 8, 9, 10, 13, 14, 15, 16] ++ ([17, 18, 19, 20, 21, 22, 23, 24, 25, 26, 28, 29] ++ ([30, 32, 33, 35, 36, 37, 38, 39, 40, 41, 42, 43] ++ ([44, 46, 47, 48, 50, 51, 53, 54, 55, 56, 58, 60] ++ ([61, 62, 63, 64, 65, 66, 67, 68, 69, 70, 71, 72] ++ ([73, 74, 75, 76, 77, 78, 79, 80]))))) from rfl]
  rw [List.foldl_append, h0, List.foldl_append, h1, List.foldl_append, h2, List.foldl_append, h3, List.foldl_append, h4, h5]

theorem c9oc10 : only_choice c9e10 = c9o10 := by decide!
theorem c9nt10 : naked_twins c9o10 = c9n10 := by decide!
theorem c9ck_e10 : check_complete c9e10 = (false, some c9e10) := by decide!
theorem c9ck_o10 : check_complete c9o10 = (false, some c9o10) := by decide!
theorem c9ck_n10 : check_complete c9n10 = (false, some c9n10) := by decide!
theorem c9inv10 : invalid_boxes c9n10 = false := by decide!
theorem c9sb_n10 : solved_boxes c9n10 = c9sbL10 := by decide!

theorem c9elim11 : eliminate c9n10 = c9e11 := by
  have h0 : List.foldl eliminate_box c9n10 [0, 1, 2, 3, 4, 5, 6, 7, 8, 9, 10, 11] = c9m11x0 := by decide!
  have h1 : List.foldl eliminate_box c9m11x0 [12, 13, 14, 15, 16, 17, 18, 19, 20, 21, 22, 23] = c9m11x1 := by decide!
  have h2 : List.foldl eliminate_box c9m11x1 [24, 25, 26, 27, 28, 29, 30, 32, 33, 34, 35, 36] = c9m11x2 := by decide!
  have h3 : List.foldl eliminate_box c9m11x2 [37, 38, 39, 40, 41, 42, 43, 44, 45, 46, 47, 48] = c9m11x3 := by decide!
  have h4 : List.foldl eliminate_box c9m11x3 [49, 50, 51, 52, 53, 54, 55, 56, 57, 58, 59, 60] = c9m11x4 := by decide!
  have h5 : List.foldl eliminate_box c9m11x4 [61, 62, 63, 64, 65, 66, 67, 68, 69, 70, 71, 72] = c9m11x5 := by decide!
  have h6 : List.foldl eliminate_box c9m11x5 [73, 74, 75, 76, 77, 78, 79, 80] = c9e11 := by decide!
  unfold eliminate
  rw [c9sb_n10]
  rw [show c9sbL10 = [0, 1, 2, 3, 4, 5, 6, 7, 8, 9, 10, 11] ++ ([12, 13, 14, 15, 16, 17, 18, 19, 20, 21, 22, 23] ++ ([24, 25, 26, 27, 28, 29, 30, 32, 33, 34, 35, 36] ++ ([37, 38, 39, 40, 41, 42, 43, 44, 45, 46, 47, 48] ++ ([49, 50, 51, 52, 53, 54, 55, 56, 57, 58, 59, 60] ++ ([61, 62, 63, 64, 65, 66, 67, 68, 69, 70, 71, 72] ++ ([73, 74, 75, 76, 77, 78, 79, 80])))))) from rfl]
  rw [List.foldl_append, h0, List.foldl_append, h1, List.foldl_append, h2, List.foldl_append, h3, List.foldl_append, h4, List.foldl_append, h5, h6]

theorem c9ck_e11 : check_complete c9e11 = (true, some c9e11) := by decide!

theorem c9_reduce : reduce_puzzle c9s0 = some c9e11 := by
  have hstart : reduce_puzzle c9s0 = reduce_loop 82 c9sbL0 c9s0 := by
    unfold reduce_puzzle; rw [c9sb_s0]
  have r1 : reduce_loop 82 c9sbL0 c9s0 = reduce_loop 81 c9sbL1 c9n1 :=
    reduce_loop_round 81 c9sbL0 c9sbL1 c9s0 c9e1 c9o1 c9n1
      c9elim1 c9ck_e1 c9oc1 c9ck_o1 c9nt1 c9ck_n1 c9inv1 c9sb_n1 (by decide)
  have r2 : reduce_loop 81 c9sbL1 c9n1 = reduce_loop 80 c9sbL2 c9n2 :=
    reduce_loop_round 80 c9sbL1 c9sbL2 c9n1 c9e2 c9o2 c9n2
      c9elim2 c9ck_e2 c9oc2 c9ck_o2 c9nt2 c9ck_n2 c9inv2 c9sb_n2 (by decide)
  have r3 : reduce_loop 80 c9sbL2 c9n2 = reduce_loop 79 c9sbL3 c9n3 :=
    reduce_loop_round 79 c9sbL2 c9sbL3 c9n2 c9e3 c9o3 c9n3
      c9elim3 c9ck_e3 c9oc3 c9ck_o3 c9nt3 c9ck_n3 c9inv3 c9sb_n3 (by decide)
  have r4 : reduce_loop 79 c9sbL3 c9n3 = reduce_loop 78 c9sbL4 c9n4 :=
    reduce_loop_round 78 c9sbL3 c9sbL4 c9n3 c9e4 c9o4 c9n4
      c9elim4 c9ck_e4 c9oc4 c9ck_o4 c9nt4 c9ck_n4 c9inv4 c9sb_n4 (by decide)
  have r5 : reduce_loop 78 c9sbL4 c9n4 = reduce_loop 77 c9sbL5 c9n5 :=
    reduce_loop_round 77 c9sbL4 c9sbL5 c9n4 c9e5 c9o5 c9n5
      c9elim5 c9ck_e5 c9oc5 c9ck_o5 c9nt5 c9ck_n5 c9inv5 c9sb_n5 (by decide)
  have r6 : reduce_loop 77 c9sbL5 c9n5 = reduce_loop 76 c9sbL6 c9n6 :=
    reduce_loop_round 76 c9sbL5 c9sbL6 c9n5 c9e6 c9o6 c9n6
      c9elim6 c9ck_e6 c9oc6 c9ck_o6 c9nt6 c9ck_n6 c9inv6 c9sb_n6 (by decide)
  have r7 : reduce_loop 76 c9sbL6 c9n6 = reduce_loop 75 c9sbL7 c9n7 :=
    reduce_loop_round 75 c9sbL6 c9sbL7 c9n6 c9e7 c9o7 c9n7
      c9elim7 c9ck_e7 c9oc7 c9ck_o7 c9nt7 c9ck_n7 c9inv7 c9sb_n7 (by decide)
  have r8 : reduce_loop 75 c9sbL7 c9n7 = reduce_loop 74 c9sbL8 c9n8 :=
    reduce_loop_round 74 c9sbL7 c9sbL8 c9n7 c9e8 c9o8 c9n8
      c9elim8 c9ck_e8 c9oc8 c9ck_o8 c9nt8 c9ck_n8 c9inv8 c9sb_n8 (by decide)
  have r9 : reduce_loop 74 c9sbL8 c9n8 = reduce_loop 73 c9sbL9 c9n9 :=
    reduce_loop_round 73 c9sbL8 c9sbL9 c9n8 c9e9 c9o9 c9n9
      c9elim9 c9ck_e9 c9oc9 c9ck_o9 c9nt9 c9ck_n9 c9inv9 c9sb_n9 (by decide)
  have r10 : reduce_loop 73 c9sbL9 c9n9 = reduce_loop 72 c9sbL10 c9n10 :=
    reduce_loop_round 72 c9sbL9 c9sbL10 c9n9 c9e10 c9o10 c9n10
      c9elim10 c9ck_e10 c9oc10 c9ck_o10 c9nt10 c9ck_n10 c9inv10 c9sb_n10 (by decide)
  have rlast : reduce_loop 72 c9sbL10 c9n10 = some c9e11 :=
    reduce_loop_last 71 c9sbL10 c9n10 c9e11 c9elim11 c9ck_e11
  rw [hstart, r1, r2, r3, r4, r5, r6, r7, r8, r9, r10, rlast]

theorem c9_serialize : values_grid c9e11 = expectedSol := by decide!

theorem c6elim0 : eliminate c6s0 = c6s0 := by
  have h : solved_boxes c6s0 = [] := by decide!
  unfold eliminate; rw [h]; rfl
theorem c6oc0 : only_choice c6s0 = c6s0 := by decide!
theorem c6nt0 : naked_twins c6s0 = c6s1 := by decide!
theorem c6ck0 : check_complete c6s1 = (false, some c6s1) := by decide!
theorem c6ckA0 : check_complete c6s0 = (false, some c6s0) := by decide!
theorem c6inv0 : invalid_boxes c6s1 = false := by decide!
theorem c6sb0 : solved_boxes c6s1 = [] := by decide!
theorem c6sbA0 : solved_boxes c6s0 = [] := by decide!

theorem c6elim1 : eliminate c6s1 = c6s1 := by
  have h : solved_boxes c6s1 = [] := by decide!
  unfold eliminate; rw [h]; rfl
theorem c6oc1 : only_choice c6s1 = c6s1 := by decide!
theorem c6nt1 : naked_twins c6s1 = c6s2 := by decide!
theorem c6ck1 : check_complete c6s2 = (false, some c6s2) := by decide!
theorem c6ckA1 : check_complete c6s1 = (false, some c6s1) := by decide!
theorem c6inv1 : invalid_boxes c6s2 = false := by decide!
theorem c6sb1 : solved_boxes c6s2 = [] := by decide!
theorem c6sbA1 : solved_boxes c6s1 = [] := by decide!

theorem flatten_map_singleton {α β : Type} (l : List α) (g : α → β) :
    (l.map (fun x => [g x])).flatten = l.map g := by
  induction l with
  | nil => rfl
  | cons a t ih => simp [ih]

theorem map_getD_range {α : Type} (s : List α) (d : α) :
    (List.range s.length).map (fun i => s.getD i d) = s := by
  induction s with
  | nil => rfl
  | cons a t ih =>
    rw [List.length_cons, List.range_succ_eq_map, List.map_cons, List.map_map]
    have h2 : (List.range t.length).map ((fun i => (a :: t).getD i d) ∘ Nat.succ)
        = (List.range t.length).map (fun i => t.getD i d) :=
      List.map_congr_left (fun i _ => by simp)
    rw [List.getD_cons_zero, h2, ih]

theorem getD_mem_of_lt {α : Type} {s : List α} {i : Nat} (h : i < s.length) (d : α) :
    s.getD i d ∈ s := by
  rw [List.getD_eq_getElem s d h]
  exact List.getElem_mem h

theorem values_grid_of_singletons (v : Values) (h : v.length = 81)
    (hs : ∀ x ∈ v, x.length = 1) : values_grid v = v.flatten := by
  unfold values_grid
  have h2 : (List.range 81).map
        (fun b => if (v.getD b []).length = 1 then v.getD b [] else (['.'] : Value))
      = (List.range 81).map (fun b => v.getD b []) := by
    refine List.map_congr_left (fun b hb => ?_)
    have hlt : b < v.length := h ▸ List.mem_range.mp hb
    exact if_pos (hs _ (getD_mem_of_lt hlt []))
  rw [h2, ← h, map_getD_range]

theorem singletons_eq_map (v : Values) (hs : ∀ x ∈ v, x.length = 1) :
    v = (v.map (fun x => x.getD 0 ' ')).map (fun c => [c]) := by
  induction v with
  | nil => rfl
  | cons x t ih =>
    have hx : x.length = 1 := hs x (List.mem_cons_self x t)
    have ht := ih (fun y hy => hs y (List.mem_cons_of_mem _ hy))
    match x, hx with
    | [c], _ =>
      simp only [List.map_cons, List.getD_cons_zero]
      rw [← ht]

/-- C7 (algebraic/relational): parse/serialize round-trip.  Serializing the
parse of any 81-character dot-free string gives the string back, and parsing
the serialization of a fully-solved state (length 81, every box a single digit
of `'1'..'9'`) gives the state back. -/
theorem C7_round_trip :
    (∀ s : List Char, s.length = 81 → '.' ∉ s → values_grid (grid_values s) = s) ∧
    (∀ v : Values, v.length = 81 → (∀ x ∈ v, x.length = 1 ∧ ∀ c ∈ x, c ∈ nine) →
      grid_values (values_grid v) = v) := by
  constructor
  · intro s hlen hdot
    have htake : s.take 81 = s := by rw [← hlen, List.take_length]
    have hmap : grid_values s = s.map (fun c => [c]) := by
      unfold grid_values
      rw [htake]
      refine List.map_congr_left (fun c hc => ?_)
      have : c ≠ '.' := fun he => hdot (he ▸ hc)
      simp [this]
    rw [hmap, values_grid_of_singletons _ (by simp [hlen]) (by simp),
      flatten_map_singleton, List.map_id']
  · intro v hlen hsol
    have hs1 : ∀ x ∈ v, x.length = 1 := fun x hx => (hsol x hx).1
    set cs := v.map (fun x => x.getD 0 ' ') with hcs
    have hv : v = cs.map (fun c => [c]) := singletons_eq_map v hs1
    have hcs_nine : ∀ c ∈ cs, c ∈ nine := by
      intro c hc
      obtain ⟨x, hx, rfl⟩ := List.mem_map.mp hc
      have hx1 : x.length = 1 := hs1 x hx
      exact (hsol x hx).2 _ (getD_mem_of_lt (hx1 ▸ Nat.zero_lt_one) ' ')
    have hgrid : values_grid v = cs := by
      rw [values_grid_of_singletons v hlen hs1]
      conv_lhs => rw [hv]
      rw [flatten_map_singleton, List.map_id']
    rw [hgrid]
    unfold grid_values
    have hcslen : cs.length = 81 := by rw [hcs, List.length_map, hlen]
    have htake : cs.take 81 = cs := by rw [← hcslen, List.take_length]
    rw [htake]
    have : cs.map (fun c => if c = '.' then nine else [c]) = cs.map (fun c => [c]) := by
      refine List.map_congr_left (fun c hc => ?_)
      have hne : c ≠ '.' := by
        intro he
        have := hcs_nine c hc
        rw [he] at this
        simp [nine] at this
      simp [hne]
    rw [this, ← hv]

/-- Closed witness for C7: both round-trip directions hold at the concrete
solved diagonal grid. -/
theorem C7_round_trip_witness :
    values_grid (grid_values expectedSol) = expectedSol ∧
    grid_values (values_grid c5good) = c5good :=
  ⟨C7_round_trip.1 expectedSol (by decide!) (by decide!),
   C7_round_trip.2 c5good (by decide!) (by decide!)⟩

theorem map_fst_zip_take {α β : Type} :
    ∀ (l1 : List α) (l2 : List β), (l1.zip l2).map Prod.fst = l1.take l2.length := by
  intro l1
  induction l1 with
  | nil => intro l2; simp
  | cons a t ih =>
    intro l2
    cases l2 with
    | nil => simp
    | cons b s => simp [ih s]

theorem zip_take_right {α β : Type} :
    ∀ (l1 : List α) (l2 : List β), l1.zip (l2.take l1.length) = l1.zip l2 := by
  intro l1
  induction l1 with
  | nil => intro l2; simp
  | cons a t ih =>
    intro l2
    cases l2 with
    | nil => simp
    | cons b s => simp [ih s]

theorem map_snd_zip_take {α β γ : Type} (g : β → γ) :
    ∀ (l1 : List α) (l2 : List β),
      (l1.zip l2).map (fun kv => g kv.2) = (l2.take l1.length).map g := by
  intro l1
  induction l1 with
  | nil => intro l2; simp
  | cons a t ih =>
    intro l2
    cases l2 with
    | nil => simp
    | cons b s => simp [ih s]

theorem boxLabels_length : boxLabels.length = 81 := by decide

/-- C10 (implicit, error handling): `grid_values` never fails.  Its keys are
exactly the first `min n 81` box labels in row-major order (`zip` silently
truncates a short grid string), characters beyond position 81 are ignored, and
the associated values are the parsed value strings in box order. -/
theorem C10_grid_values_truncation (g : List Char) :
    (grid_values_dict g).map Prod.fst = boxLabels.take g.length ∧
    grid_values_dict g = grid_values_dict (g.take 81) ∧
    (grid_values_dict g).map Prod.snd = grid_values g := by
  refine ⟨?_, ?_, ?_⟩
  · unfold grid_values_dict
    rw [List.map_map]
    have : (Prod.fst ∘ fun kv : String × Char =>
        ((kv.1, if kv.2 = '.' then nine else [kv.2]) : String × Value)) = Prod.fst := rfl
    rw [this, map_fst_zip_take]
  · unfold grid_values_dict
    rw [show g.take 81 = g.take boxLabels.length from by rw [boxLabels_length],
      zip_take_right]
  · unfold grid_values_dict grid_values
    rw [show (81 : Nat) = boxLabels.length from by rw [boxLabels_length]]
    rw [List.map_map]
    exact map_snd_zip_take (fun c => if c = '.' then nine else [c]) boxLabels g

theorem lexLe_total : ∀ a b : Value, lexLe a b = true ∨ lexLe b a = true := by
  intro a
  induction a with
  | nil => intro b; left; rfl
  | cons x s ih =>
    intro b
    cases b with
    | nil => right; rfl
    | cons y t =>
      rw [lexLe, lexLe]
      rcases lt_trichotomy x y with h | h | h
      · left; simp [h]
      · subst h
        simp only [lt_irrefl, if_false]
        exact ih t
      · right; simp [h]

theorem lexLe_antisymm : ∀ a b : Value, lexLe a b = true → lexLe b a = true → a = b := by
  intro a
  induction a with
  | nil =>
    intro b _ hba
    cases b with
    | nil => rfl
    | cons y t => exact absurd hba (by rw [lexLe]; simp)
  | cons x s ih =>
    intro b hab hba
    cases b with
    | nil => exact absurd hab (by rw [lexLe]; simp)
    | cons y t =>
      rw [lexLe] at hab hba
      rcases lt_trichotomy x y with h | h | h
      · rw [if_neg (lt_asymm h), if_pos h] at hba
        exact absurd hba (by simp)
      · subst h
        simp only [lt_irrefl, if_false] at hab hba
        rw [ih t hab hba]
      · rw [if_neg (lt_asymm h), if_pos h] at hab
        exact absurd hab (by simp)

theorem lexLe_trans : ∀ a b c : Value,
    lexLe a b = true → lexLe b c = true → lexLe a c = true := by
  intro a
  induction a with
  | nil => intro b c _ _; rfl
  | cons x s ih =>
    intro b c hab hbc
    cases b with
    | nil => exact absurd hab (by rw [lexLe]; simp)
    | cons y t =>
      cases c with
      | nil => exact absurd hbc (by rw [lexLe]; simp)
      | cons z u =>
        rw [lexLe] at hab hbc ⊢
        rcases lt_trichotomy x y with hxy | hxy | hxy
        · rcases lt_trichotomy y z with hyz | hyz | hyz
          · simp [lt_trans hxy hyz]
          · subst hyz; simp [hxy]
          · rw [if_neg (lt_asymm hyz), if_pos hyz] at hbc
            exact absurd hbc (by simp)
        · subst hxy
          simp only [lt_irrefl, if_false] at hab
          rcases lt_trichotomy x z with hxz | hxz | hxz
          · simp [hxz]
          · subst hxz
            simp only [lt_irrefl, if_false] at hbc ⊢
            exact ih t u hab hbc
          · rw [if_neg (lt_asymm hxz), if_pos hxz] at hbc
            exact absurd hbc (by simp)
        · rw [if_neg (lt_asymm hxy), if_pos hxy] at hab
          exact absurd hab (by simp)

instance : IsTotal Value (fun a b => lexLe a b = true) := ⟨lexLe_total⟩
instance : IsTrans Value (fun a b => lexLe a b = true) := ⟨lexLe_trans⟩
instance : IsAntisymm Value (fun a b => lexLe a b = true) := ⟨lexLe_antisymm⟩

theorem insertionSort_eq_iff_perm (l : List Value) :
    List.insertionSort (fun a b => lexLe a b = true) l = evalues ↔ l.Perm evalues := by
  constructor
  · intro h
    have hp := List.perm_insertionSort (fun a b => lexLe a b = true) l
    rw [h] at hp
    exact hp.symm
  · intro h
    refine List.eq_of_perm_of_sorted ((List.perm_insertionSort _ l).trans h)
      (List.sorted_insertionSort _ l) ?_
    decide

/-- C5 (functional correctness): the validator.  For a fully-assigned state
(every box a singleton), `is_valid` returns `true` iff for every unit the
multiset of its nine cell values is exactly `{'1', ..., '9'}` (stated as a
permutation of `evalues`); and the concrete fully-assigned state `c5bad`,
whose row-A cells `A1` and `A6` both hold `'5'`, is rejected. -/
theorem C5_validator :
    (∀ v : Values, (∀ b, b < 81 → (v.getD b []).length = 1) →
      (is_valid v = true ↔ ∀ u ∈ units, (u.map (fun b => v.getD b [])).Perm evalues)) ∧
    (c5bad.getD 0 [] = ['5'] ∧ c5bad.getD 5 [] = ['5'] ∧
      (∀ b, b < 81 → (c5bad.getD b []).length = 1) ∧ is_valid c5bad = false) := by
  constructor
  · intro v _
    unfold is_valid
    rw [List.all_eq_true]
    constructor
    · intro h u hu
      have := h u hu
      rw [beq_iff_eq] at this
      exact (insertionSort_eq_iff_perm _).mp this
    · intro h u hu
      rw [beq_iff_eq]
      exact (insertionSort_eq_iff_perm _).mpr (h u hu)
  · refine ⟨by decide!, by decide!, by decide!, by decide!⟩

/-- Closed witness for C5: the solved diagonal grid is fully assigned and the
validator accepts it, via the unit-permutation characterization. -/
theorem C5_validator_witness : is_valid c5good = true :=
  (C5_validator.1 c5good (by decide!)).mpr (by decide!)

theorem find?_eq_head?_filter {α : Type} (p : α → Bool) :
    ∀ l : List α, l.find? p = (l.filter p).head? := by
  intro l
  induction l with
  | nil => rfl
  | cons a t ih =>
    by_cases h : p a = true
    · rw [List.find?_cons_of_pos _ h, List.filter_cons_of_pos h, List.head?_cons]
    · have hf : p a = false := by revert h; cases p a <;> simp
      rw [List.find?_cons_of_neg _ (by simp [hf]), List.filter_cons_of_neg (by simp [hf]), ih]

theorem findSome?_append_none {α β : Type} {f : α → Option β} :
    ∀ {pre : List α}, (∀ x ∈ pre, f x = none) → ∀ l : List α,
      (pre ++ l).findSome? f = l.findSome? f := by
  intro pre
  induction pre with
  | nil => intro _ l; rfl
  | cons a t ih =>
    intro h l
    rw [List.cons_append, List.findSome?_cons, h a (List.mem_cons_self a t)]
    exact ih (fun x hx => h x (List.mem_cons_of_mem a hx)) l

theorem mem_unsolved_boxes {v : Values} {b : Nat} (h : b ∈ unsolved_boxes v) :
    b < v.length ∧ 1 < (v.getD b []).length := by
  rw [unsolved_boxes, List.mem_filter, List.mem_range] at h
  exact ⟨h.1, by simpa using h.2⟩

theorem nodup_unsolved_boxes (v : Values) : (unsolved_boxes v).Nodup :=
  (List.nodup_range _).filter _

theorem only_choice_box_getD_ne {w : Values} {x b : Nat} (h : x ≠ b) :
    (only_choice_box w x).getD b [] = w.getD b [] := by
  unfold only_choice_box
  dsimp only
  split
  · unfold assign_value
    split
    · rfl
    · exact getD_set_ne h
  · rfl

theorem only_choice_foldl_getD {b : Nat} :
    ∀ {l : List Nat}, b ∉ l → ∀ w : Values,
      (l.foldl only_choice_box w).getD b [] = w.getD b [] := by
  intro l
  induction l with
  | nil => intro _ w; rfl
  | cons a t ih =>
    intro hb w
    rw [List.foldl_cons, ih (fun hm => hb (List.mem_cons_of_mem a hm))]
    exact only_choice_box_getD_ne (fun he => hb (he ▸ List.mem_cons_self a t))

theorem assign_value_getD_self {v : Values} {b : Nat} {x : Value} (hb : b < v.length) :
    (assign_value v b x).getD b [] = x := by
  unfold assign_value
  split
  case isTrue h => exact h
  case isFalse h => exact getD_set_self hb

/-- C2 (amended): the forced-choice rule, restricted to the configuration the
code actually honours.  Let `b` be the first unsolved box of the state and let
`u` be the first of `b`'s units (in the fixed row/column/square/diagonal order)
offering any missing candidate; if exactly one candidate `c0` of `b` does not
appear among the other cells of `u`, then `only_choice` assigns `c0` to `b`.
(The unamended claim — for *every* unit of *every* unsolved box — fails: the
scan assigns from the first unit with a missing candidate and the state mutates
as earlier boxes are processed; see the counterexample.) -/
theorem C2_forced_choice_amended (v : Values) (b : Nat) (c0 : Char)
    (pre post : List (List Nat)) (u : List Nat)
    (hfirst : (unsolved_boxes v).head? = some b)
    (hsplit : unit_peers b = pre ++ u :: post)
    (hpre : ∀ u' ∈ pre, ∀ c ∈ v.getD b [], (other_choices_of v u').contains c = true)
    (hu : (v.getD b []).filter (fun c => !((other_choices_of v u).contains c)) = [c0]) :
    (only_choice v).getD b [] = [c0] := by
  have hmem : b ∈ unsolved_boxes v := by
    cases hul : unsolved_boxes v with
    | nil => rw [hul] at hfirst; exact absurd hfirst (by simp)
    | cons x t =>
      rw [hul, List.head?_cons, Option.some.injEq] at hfirst
      rw [← hfirst]
      exact List.mem_cons_self x t
  have hblt : b < v.length := (mem_unsolved_boxes hmem).1
  obtain ⟨rest, hrest⟩ : ∃ rest, unsolved_boxes v = b :: rest := by
    cases hul : unsolved_boxes v with
    | nil => rw [hul] at hfirst; exact absurd hfirst (by simp)
    | cons x t =>
      rw [hul, List.head?_cons, Option.some.injEq] at hfirst
      exact ⟨t, by rw [hfirst]⟩
  have hnotin : b ∉ rest := by
    have := nodup_unsolved_boxes v
    rw [hrest, List.nodup_cons] at this
    exact this.1
  have hstep : only_choice_box v b = assign_value v b [c0] := by
    unfold only_choice_box
    dsimp only
    have hprenone : ∀ u' ∈ pre,
        (v.getD b []).find? (fun c => !((other_choices_of v u').contains c)) = none := by
      intro u' hu'
      rw [List.find?_eq_none]
      intro c hc
      rw [hpre u' hu' c hc]
      simp
    have hufind : (v.getD b []).find? (fun c => !((other_choices_of v u).contains c))
        = some c0 := by
      rw [find?_eq_head?_filter, hu, List.head?_cons]
    have hfind : (unit_peers b).findSome? (fun u' =>
        (v.getD b []).find? (fun c => !((other_choices_of v u').contains c))) = some c0 := by
      rw [hsplit, findSome?_append_none hprenone, List.findSome?_cons, hufind]
    rw [hfind]
  unfold only_choice
  rw [hrest, List.foldl_cons, only_choice_foldl_getD hnotin, hstep,
    assign_value_getD_self hblt]

/-- Counterexample to C2 as stated: in state `c2cex` the box `A1` (index 0) is
unsolved, its column unit (the second of its units) has exactly one missing
candidate `'2'`, yet `only_choice` does not assign `'2'` — the row unit is
scanned first and forces `'1'`. -/
theorem C2_forced_choice_cex :
    0 ∈ unsolved_boxes c2cex ∧
    [9, 18, 27, 36, 45, 54, 63, 72] ∈ unit_peers 0 ∧
    (c2cex.getD 0 []).filter
      (fun c => !((other_choices_of c2cex [9, 18, 27, 36, 45, 54, 63, 72]).contains c))
      = ['2'] ∧
    (only_choice c2cex).getD 0 [] ≠ ['2'] := by decide!

/-- Closed witness for the amended C2: in the same state the first unit of `A1`
(the row) misses exactly `'1'`, and `only_choice` assigns it. -/
theorem C2_forced_choice_amended_witness : (only_choice c2cex).getD 0 [] = ['1'] :=
  C2_forced_choice_amended c2cex 0 '1' []
    [[9, 18, 27, 36, 45, 54, 63, 72], [1, 2, 9, 10, 11, 18, 19, 20],
      [10, 20, 30, 40, 50, 60, 70, 80]]
    [1, 2, 3, 4, 5, 6, 7, 8]
    (by decide!) (by decide!) (by decide!) (by decide!)

theorem check_complete_snd_some {v w : Values} (h : (check_complete v).2 = some w) :
    w = v ∧ invalid_boxes v = false := by
  unfold check_complete at h
  split at h
  case isTrue => exact absurd h (by simp)
  case isFalse hinv =>
    have hinvf : invalid_boxes v = false := by
      revert hinv; cases invalid_boxes v <;> simp
    split at h
    · split at h
      · exact absurd h (by simp)
      · exact ⟨(Option.some.inj h).symm, hinvf⟩
    · exact ⟨(Option.some.inj h).symm, hinvf⟩

theorem check_complete_fst_false {v : Values} (hinv : invalid_boxes v = false)
    (h : (check_complete v).1 = false) : solved_count v ≠ 81 := by
  intro hcnt
  unfold check_complete at h
  rw [if_neg (by simp [hinv]), if_pos hcnt] at h
  split at h <;> simp at h

theorem shrinks_reduce_loop :
    ∀ (fuel : Nat) (sbb : List Nat) (v w : Values),
      reduce_loop fuel sbb v = some w → Shrinks w v := by
  intro fuel
  induction fuel with
  | zero => intro sbb v w h; exact absurd h (by rw [reduce_loop]; simp)
  | succ f ih =>
    intro sbb v w h
    rw [reduce_loop] at h
    dsimp only at h
    split at h
    · obtain ⟨hw, _⟩ := check_complete_snd_some h
      exact hw ▸ shrinks_eliminate v
    · split at h
      · obtain ⟨hw, _⟩ := check_complete_snd_some h
        exact hw ▸ shrinks_trans (shrinks_only_choice _) (shrinks_eliminate v)
      · split at h
        · obtain ⟨hw, _⟩ := check_complete_snd_some h
          exact hw ▸ shrinks_trans (shrinks_naked_twins _)
            (shrinks_trans (shrinks_only_choice _) (shrinks_eliminate v))
        · split at h
          · exact absurd h (by simp)
          · split at h
            · have hw := Option.some.inj h
              exact hw ▸ shrinks_trans (shrinks_naked_twins _)
                (shrinks_trans (shrinks_only_choice _) (shrinks_eliminate v))
            · exact shrinks_trans (ih _ _ _ h)
                (shrinks_trans (shrinks_naked_twins _)
                  (shrinks_trans (shrinks_only_choice _) (shrinks_eliminate v)))

theorem invalid_of_reduce_loop :
    ∀ (fuel : Nat) (sbb : List Nat) (v w : Values),
      reduce_loop fuel sbb v = some w → invalid_boxes w = false := by
  intro fuel
  induction fuel with
  | zero => intro sbb v w h; exact absurd h (by rw [reduce_loop]; simp)
  | succ f ih =>
    intro sbb v w h
    rw [reduce_loop] at h
    dsimp only at h
    split at h
    · obtain ⟨hw, hi⟩ := check_complete_snd_some h
      exact hw ▸ hi
    · split at h
      · obtain ⟨hw, hi⟩ := check_complete_snd_some h
        exact hw ▸ hi
      · split at h
        · obtain ⟨hw, hi⟩ := check_complete_snd_some h
          exact hw ▸ hi
        · split at h
          · exact absurd h (by simp)
          · case _ hinv =>
            have hinvf : invalid_boxes (naked_twins (only_choice (eliminate v))) = false := by
              revert hinv; cases invalid_boxes (naked_twins (only_choice (eliminate v))) <;> simp
            split at h
            · exact (Option.some.inj h) ▸ hinvf
            · exact ih _ _ _ h

theorem unsolved_length_eq_countP (v : Values) :
    (unsolved_boxes v).length
      = (List.range v.length).countP (fun i => decide (1 < (v.getD i []).length)) := by
  rw [unsolved_boxes, ← List.countP_eq_length_filter]

theorem uc_le_of_shrinks {w v : Values} (h : Shrinks w v) :
    (unsolved_boxes w).length ≤ (unsolved_boxes v).length := by
  rw [unsolved_length_eq_countP, unsolved_length_eq_countP, h.1]
  refine List.countP_mono_left (fun i _ hi => ?_)
  rw [decide_eq_true_eq] at hi ⊢
  exact Nat.lt_of_lt_of_le hi ((h.2 i).length_le)

theorem countP_lt_of_update {p q : Nat → Bool} {b : Nat}
    (hp : p b = true) (hq : q b = false) (hag : ∀ x, x ≠ b → q x = p x) :
    ∀ l : List Nat, l.Nodup → b ∈ l → l.countP q < l.countP p := by
  intro l
  induction l with
  | nil => intro _ hb; exact absurd hb (by simp)
  | cons a t ih =>
    intro hnd hb
    rw [List.nodup_cons] at hnd
    by_cases ha : a = b
    · subst ha
      rw [List.countP_cons_of_neg _ _ (by simp [hq]), List.countP_cons_of_pos _ _ hp]
      have heq : t.countP q = t.countP p :=
        List.countP_congr (fun x hx => by rw [hag x (fun he => hnd.1 (he ▸ hx))])
      omega
    · have hbt : b ∈ t := by
        rcases List.mem_cons.mp hb with h | h
        · exact absurd h.symm ha
        · exact h
      have hlt := ih hnd.2 hbt
      by_cases hpa : p a = true
      · rw [List.countP_cons_of_pos _ _ ((hag a ha).trans hpa),
          List.countP_cons_of_pos _ _ hpa]
        omega
      · have hpaf : p a = false := by revert hpa; cases p a <;> simp
        rw [List.countP_cons_of_neg _ _ (by simp [hag a ha, hpaf]),
          List.countP_cons_of_neg _ _ (by simp [hpaf])]
        exact hlt

theorem uc_set_lt {v : Values} {b : Nat} {c : Char} (hb : b ∈ unsolved_boxes v) :
    (unsolved_boxes (v.set b [c])).length < (unsolved_boxes v).length := by
  obtain ⟨hblt, hlen⟩ := mem_unsolved_boxes hb
  rw [unsolved_length_eq_countP, unsolved_length_eq_countP, List.length_set]
  refine countP_lt_of_update (p := fun i => decide (1 < (v.getD i []).length))
    (q := fun i => decide (1 < ((v.set b [c]).getD i []).length)) ?_ ?_ ?_
    (List.range v.length) (List.nodup_range _) (List.mem_range.mpr hblt)
  · simpa using hlen
  · show decide (1 < ((v.set b [c]).getD b []).length) = false
    rw [getD_set_self hblt]
    simp
  · intro x hx
    show decide (1 < ((v.set b [c]).getD x []).length)
        = decide (1 < (v.getD x []).length)
    rw [getD_set_ne (fun he => hx he.symm)]

theorem foldl_pick_mem {f : Nat × Value → Nat × Value → Nat × Value}
    (hf : ∀ x y, f x y = x ∨ f x y = y) :
    ∀ (xs : List (Nat × Value)) (acc : Nat × Value), xs.foldl f acc ∈ acc :: xs := by
  intro xs
  induction xs with
  | nil => intro acc; exact List.mem_cons_self acc []
  | cons y ys ih =>
    intro acc
    rw [List.foldl_cons]
    have := ih (f acc y)
    rcases List.mem_cons.mp this with h | h
    · rcases hf acc y with he | he
      · rw [h, he]; exact List.mem_cons_self _ _
      · rw [h, he]; exact List.mem_cons_of_mem _ (List.mem_cons_self _ _)
    · exact List.mem_cons_of_mem _ (List.mem_cons_of_mem _ h)

theorem pick_min_mem {l : List (Nat × Value)} {x : Nat × Value}
    (h : pick_min l = some x) : x ∈ l := by
  cases l with
  | nil => exact absurd h (by rw [pick_min]; simp)
  | cons a t =>
    rw [pick_min, Option.some.injEq] at h
    rw [← h]
    exact foldl_pick_mem (fun p q => by
      split
      · exact Or.inr rfl
      · exact Or.inl rfl) t a

theorem findSome?_congr {α β : Type} {f g : α → Option β} :
    ∀ {l : List α}, (∀ a ∈ l, f a = g a) → l.findSome? f = l.findSome? g := by
  intro l
  induction l with
  | nil => intro _; rfl
  | cons a t ih =>
    intro h
    rw [List.findSome?_cons, List.findSome?_cons, h a (List.mem_cons_self a t)]
    cases g a with
    | some b => rfl
    | none => exact ih (fun x hx => h x (List.mem_cons_of_mem a hx))

theorem uc_reduce_of_set {v t : Values} {node : Nat} {ch : Char}
    (hnode : node ∈ unsolved_boxes v)
    (ht : reduce_puzzle (v.set node [ch]) = some t) :
    (unsolved_boxes t).length < (unsolved_boxes v).length :=
  Nat.lt_of_le_of_lt (uc_le_of_shrinks (shrinks_reduce_loop _ _ _ _ ht)) (uc_set_lt hnode)

theorem searchF_stable :
    ∀ (fuel : Nat) (v : Values), invalid_boxes v = false →
      (unsolved_boxes v).length < fuel → searchF fuel v = searchF (fuel + 1) v := by
  intro fuel
  induction fuel with
  | zero => intro v _ h; exact absurd h (by omega)
  | succ f ih =>
    intro v hinv hlt
    rw [searchF, searchF]
    by_cases h1 : (check_complete v).1 = true
    · simp only [h1, if_true]
    · have h1f : (check_complete v).1 = false := by
        revert h1; cases (check_complete v).1 <;> simp
      have hcnt := check_complete_fst_false hinv h1f
      have hc := check_complete_incomplete hinv hcnt
      simp only [hc]
      cases hpm : pick_min ((unsolved_boxes v).map (fun b => (b, v.getD b []))) with
      | none => simp
      | some nc =>
        obtain ⟨node, choices⟩ := nc
        simp only
        have hnode : node ∈ unsolved_boxes v := by
          obtain ⟨b, hb, hbe⟩ := List.mem_map.mp (pick_min_mem hpm)
          have hb1 : b = node := congrArg Prod.fst hbe
          rw [← hb1]
          exact hb
        refine findSome?_congr (fun ch _ => ?_)
        cases hrp : reduce_puzzle (v.set node [ch]) with
        | none => rfl
        | some t =>
          have hinvt := invalid_of_reduce_loop _ _ _ _ hrp
          have huct : (unsolved_boxes t).length < f := by
            have := uc_reduce_of_set hnode hrp
            omega
          exact ih t hinvt huct

/-- C8 (termination/resources): the backtracking search terminates.  Every
recursive call of `searchF` is made on a state with strictly fewer unsolved
boxes than its caller's (second conjunct), so on an 81-box state without
empty-valued boxes the recursion depth is bounded by 82, and `searchF` computes
the same result with any fuel of at least 82 — the standing bound used by
`search` (first conjunct). -/
theorem C8_search_termination (v : Values) (fuel : Nat) (hlen : v.length = 81)
    (hinv : invalid_boxes v = false) (hfuel : 82 ≤ fuel) :
    searchF fuel v = search v ∧
    (∀ (node : Nat) (ch : Char) (t : Values), node ∈ unsolved_boxes v →
      reduce_puzzle (v.set node [ch]) = some t →
      (unsolved_boxes t).length < (unsolved_boxes v).length) := by
  refine ⟨?_, fun node ch t hnode ht => uc_reduce_of_set hnode ht⟩
  have hub : (unsolved_boxes v).length ≤ 81 := by
    have h2 := List.length_filter_le (fun i => decide (1 < (v.getD i []).length))
      (List.range v.length)
    rw [List.length_range] at h2
    rw [unsolved_boxes]
    omega
  have hstep : ∀ k : Nat, searchF (82 + k) v = searchF 82 v := by
    intro k
    induction k with
    | zero => rfl
    | succ m ihm =>
      have := searchF_stable (82 + m) v hinv (by omega)
      rw [show 82 + (m + 1) = (82 + m) + 1 from rfl, ← this, ihm]
  obtain ⟨k, rfl⟩ : ∃ k, fuel = 82 + k := ⟨fuel - 82, by omega⟩
  rw [hstep k]
  rfl

/-- Closed witness for C8: the solved diagonal state has no empty-valued boxes
and `searchF` at fuel 83 agrees with `search`. -/
theorem C8_search_termination_witness :
    c8w.length = 81 ∧ invalid_boxes c8w = false ∧ searchF 83 c8w = search c8w :=
  ⟨by decide!, by decide!,
    (C8_search_termination c8w 83 (by decide!) (by decide!) (by omega)).1⟩

theorem getD_eq_nil_of_le {v : Values} {i : Nat} (h : v.length ≤ i) : v.getD i [] = [] := by
  rw [List.getD_eq_getElem?_getD, List.getElem?_eq_none h, Option.getD_none]

theorem isPrefixOf_single (c d : Char) (t : List Char) :
    List.isPrefixOf [c] (d :: t) = (c == d) := by
  show (c == d && List.isPrefixOf [] t) = (c == d)
  rw [List.isPrefixOf]
  exact Bool.and_true _

theorem pyReplaceGo_single_not_mem :
    ∀ (fuel : Nat) (s : List Char), s.length ≤ fuel → ∀ c : Char,
      c ∉ pyReplaceGo fuel s [c] := by
  intro fuel
  induction fuel with
  | zero =>
    intro s hs c
    have : s = [] := List.eq_nil_of_length_eq_zero (Nat.le_zero.mp hs)
    subst this
    simp [pyReplaceGo]
  | succ f ih =>
    intro s hs c
    cases s with
    | nil => simp [pyReplaceGo]
    | cons d t =>
      rw [pyReplaceGo]
      by_cases hcd : c = d
      · subst hcd
        rw [if_pos (by rw [isPrefixOf_single]; simp)]
        exact ih _ (by simpa using hs) c
      · rw [if_neg (by rw [isPrefixOf_single]; simp [hcd])]
        intro hmem
        rcases List.mem_cons.mp hmem with h | h
        · exact hcd h
        · exact ih t (by simpa using Nat.le_of_succ_le_succ hs) c h

theorem pyReplace_single_not_mem (s : List Char) (c : Char) : c ∉ pyReplace s [c] := by
  unfold pyReplace
  rw [if_neg (by simp)]
  exact pyReplaceGo_single_not_mem s.length s (Nat.le_refl _) c

theorem rc_step_getD_mem {choices : Value} {z : Nat} {w2 : Values} {ch : Char}
    (h : ch ∈ choices) :
    (rc_step choices z w2 ch).getD z [] = pyReplace (w2.getD z []) [ch] := by
  unfold rc_step
  rw [if_pos h]
  unfold assign_value
  split
  case isTrue he => exact he
  case isFalse he =>
    by_cases hz : z < w2.length
    · exact getD_set_self hz
    · exfalso
      apply he
      rw [getD_eq_nil_of_le (Nat.le_of_not_lt hz)]
      rfl

theorem rc_step_getD_ne {choices : Value} {z y : Nat} {w2 : Values} {ch : Char}
    (h : y ≠ z) : (rc_step choices z w2 ch).getD y [] = w2.getD y [] := by
  unfold rc_step
  split
  · unfold assign_value
    split
    · rfl
    · exact getD_set_ne (fun he => h he.symm)
  · rfl

theorem remove_choices_getD_other {w : Values} {choices : Value} {z y : Nat}
    (h : y ≠ z) : (remove_choices w choices z).getD y [] = w.getD y [] := by
  unfold remove_choices
  generalize w.getD z [] = chars
  induction chars generalizing w with
  | nil => rfl
  | cons d tl ih => rw [List.foldl_cons, ih, rc_step_getD_ne h]

theorem absent_of_shrinks {w' w : Values} {z : Nat} {c : Char}
    (hs : Shrinks w' w) (h : c ∉ w.getD z []) : c ∉ w'.getD z [] :=
  fun hmem => h ((hs.2 z).subset hmem)

theorem rc_fold_absent {choices : Value} {z : Nat} {c : Char} (hc : c ∈ choices) :
    ∀ (chars : List Char) (w : Values), (c ∈ chars ∨ c ∉ w.getD z []) →
      c ∉ ((chars.foldl (rc_step choices z) w).getD z []) := by
  intro chars
  induction chars with
  | nil =>
    intro w h
    rcases h with h | h
    · exact absurd h (by simp)
    · exact h
  | cons d tl ih =>
    intro w h
    rw [List.foldl_cons]
    by_cases hcd : c = d
    · refine ih _ (Or.inr ?_)
      rw [← hcd, rc_step_getD_mem (hcd ▸ hc)]
      exact pyReplace_single_not_mem _ c
    · refine ih _ ?_
      rcases h with h | h
      · rcases List.mem_cons.mp h with h2 | h2
        · exact absurd h2 hcd
        · exact Or.inl h2
      · exact Or.inr (absent_of_shrinks (shrinks_rc_step choices z w d) h)

theorem remove_choices_absent {w : Values} {choices : Value} {z : Nat} {c : Char}
    (hc : c ∈ choices) : c ∉ (remove_choices w choices z).getD z [] := by
  unfold remove_choices
  by_cases h : c ∈ w.getD z []
  · exact rc_fold_absent hc _ w (Or.inl h)
  · exact rc_fold_absent hc _ w (Or.inr h)

theorem nt_remove_step_getD_p {choices : Value} {p : Nat} {w2 : Values} {ntp : Nat} :
    (nt_remove_step choices p w2 ntp).getD p [] = w2.getD p [] := by
  unfold nt_remove_step
  split
  case isTrue => rfl
  case isFalse h => exact remove_choices_getD_other (fun he => h he.symm)

theorem nt_remove_fold_getD_p {choices : Value} {p : Nat} :
    ∀ (l : List Nat) (w : Values),
      ((l.foldl (nt_remove_step choices p) w).getD p []) = w.getD p [] := by
  intro l
  induction l with
  | nil => intro w; rfl
  | cons a tl ih => intro w; rw [List.foldl_cons, ih, nt_remove_step_getD_p]

theorem nt_remove_fold_absent {choices : Value} {p z : Nat} {c : Char}
    (hz : z ≠ p) (hc : c ∈ choices) :
    ∀ (l : List Nat) (w : Values), z ∈ l →
      c ∉ ((l.foldl (nt_remove_step choices p) w).getD z []) := by
  intro l
  induction l with
  | nil => intro w h; exact absurd h (by simp)
  | cons a tl ih =>
    intro w hmem
    rw [List.foldl_cons]
    by_cases hza : z = a
    · subst hza
      have habs : c ∉ (nt_remove_step choices p w z).getD z [] := by
        unfold nt_remove_step
        rw [if_neg hz]
        exact remove_choices_absent hc
      exact absent_of_shrinks
        (shrinks_foldl (shrinks_nt_remove_step choices p) tl _) habs
    · rcases List.mem_cons.mp hmem with h | h
      · exact absurd h hza
      · exact ih _ h

theorem nt_remove_fold_getD_untouched {choices : Value} {p q : Nat} :
    ∀ (l : List Nat) (w : Values), (q = p ∨ q ∉ l) →
      ((l.foldl (nt_remove_step choices p) w).getD q []) = w.getD q [] := by
  intro l
  induction l with
  | nil => intro w _; rfl
  | cons a tl ih =>
    intro w hq
    rw [List.foldl_cons]
    have htl : q = p ∨ q ∉ tl := by
      rcases hq with h | h
      · exact Or.inl h
      · exact Or.inr (fun hm => h (List.mem_cons_of_mem a hm))
    rw [ih _ htl]
    unfold nt_remove_step
    split
    case isTrue => rfl
    case isFalse hne =>
      refine remove_choices_getD_other ?_
      rcases hq with h | h
      · exact fun he => hne (by rw [← he, h])
      · exact fun he => h (he ▸ List.mem_cons_self a tl)

/-- The invariant carried through the processing of box `b` by `naked_twins`:
the twin partner `p` still holds exactly the twins' candidate string, and no
other member of any of `b`'s units does. -/
def TwinInv (b p : Nat) (choices : Value) (w : Values) : Prop :=
  w.getD p [] = choices ∧
  ∀ u' ∈ unit_peers b, ∀ q ∈ u', q ≠ p → w.getD q [] ≠ choices

theorem twininv_after_removal_fold {b p : Nat} {choices : Value} {w : Values}
    (hP : TwinInv b p choices w) (hne : choices ≠ []) (u0 : List Nat) :
    TwinInv b p choices (u0.foldl (nt_remove_step choices p) w) := by
  obtain ⟨c0, hc0⟩ : ∃ c0, c0 ∈ choices := by
    cases hch : choices with
    | nil => exact absurd hch hne
    | cons x xs => exact ⟨x, hch ▸ List.mem_cons_self x xs⟩
  constructor
  · rw [nt_remove_fold_getD_p, hP.1]
  · intro u' hu' q hq hqp
    by_cases hqu : q ∈ u0
    · intro heq
      have := nt_remove_fold_absent hqp hc0 u0 w hqu
      rw [heq] at this
      exact this hc0
    · rw [nt_remove_fold_getD_untouched u0 w (Or.inr hqu)]
      exact hP.2 u' hu' q hq hqp

theorem twininv_after_peer_step {b p : Nat} {choices : Value} {w : Values}
    {u0 : List Nat} {peer : Nat} (hP : TwinInv b p choices w) (hne : choices ≠ [])
    (hu0 : u0 ∈ unit_peers b) (hpeer : peer ∈ u0) :
    TwinInv b p choices (nt_peer_step choices u0 w peer) := by
  unfold nt_peer_step
  split
  case isTrue hm =>
    by_cases hpp : peer = p
    · subst hpp
      exact twininv_after_removal_fold hP hne u0
    · exact absurd hm (hP.2 u0 hu0 peer hpeer hpp)
  case isFalse => exact hP

theorem twininv_after_peer_fold {b p : Nat} {choices : Value} {u0 : List Nat}
    (hne : choices ≠ []) (hu0 : u0 ∈ unit_peers b) :
    ∀ (l : List Nat) (w : Values), (∀ x ∈ l, x ∈ u0) → TwinInv b p choices w →
      TwinInv b p choices (l.foldl (nt_peer_step choices u0) w) := by
  intro l
  induction l with
  | nil => intro w _ hP; exact hP
  | cons a tl ih =>
    intro w hsub hP
    rw [List.foldl_cons]
    exact ih _ (fun x hx => hsub x (List.mem_cons_of_mem a hx))
      (twininv_after_peer_step hP hne hu0 (hsub a (List.mem_cons_self a tl)))

theorem twininv_after_unit_step {b p : Nat} {choices : Value} {w : Values}
    {u0 : List Nat} (hP : TwinInv b p choices w) (hne : choices ≠ [])
    (hu0 : u0 ∈ unit_peers b) :
    TwinInv b p choices (nt_unit_step choices w u0) :=
  twininv_after_peer_fold hne hu0 u0 w (fun _ hx => hx) hP

theorem unit_scan_absent {b p z : Nat} {choices : Value} {u : List Nat} {c : Char}
    (hne : choices ≠ []) (hu : u ∈ unit_peers b) (hz : z ∈ u) (hzp : z ≠ p)
    (hc : c ∈ choices) :
    ∀ (l : List Nat) (w : Values), (∀ x ∈ l, x ∈ u) → TwinInv b p choices w →
      p ∈ l → c ∉ ((l.foldl (nt_peer_step choices u) w).getD z []) := by
  intro l
  induction l with
  | nil => intro w _ _ hp; exact absurd hp (by simp)
  | cons a tl ih =>
    intro w hsub hP hp
    rw [List.foldl_cons]
    by_cases hap : a = p
    · subst hap
      have hstep : nt_peer_step choices u w a = u.foldl (nt_remove_step choices a) w := by
        unfold nt_peer_step
        rw [if_pos hP.1]
      rw [hstep]
      have habs : c ∉ ((u.foldl (nt_remove_step choices a) w).getD z []) :=
        nt_remove_fold_absent hzp hc u _ hz
      exact absent_of_shrinks
        (shrinks_foldl (shrinks_nt_peer_step choices u) tl _) habs
    · have hstep : nt_peer_step choices u w a = w := by
        unfold nt_peer_step
        rw [if_neg (hP.2 u hu a (hsub a (List.mem_cons_self a tl)) hap)]
      rw [hstep]
      have hptl : p ∈ tl := by
        rcases List.mem_cons.mp hp with h | h
        · exact absurd h.symm hap
        · exact h
      exact ih _ (fun x hx => hsub x (List.mem_cons_of_mem a hx)) hP hptl

theorem twininv_after_units_fold {b p : Nat} {choices : Value} (hne : choices ≠ []) :
    ∀ (l : List (List Nat)) (w : Values), (∀ x ∈ l, x ∈ unit_peers b) →
      TwinInv b p choices w → TwinInv b p choices (l.foldl (nt_unit_step choices) w) := by
  intro l
  induction l with
  | nil => intro w _ hP; exact hP
  | cons u0 tl ih =>
    intro w hsub hP
    rw [List.foldl_cons]
    exact ih _ (fun x hx => hsub x (List.mem_cons_of_mem u0 hx))
      (twininv_after_unit_step hP hne (hsub u0 (List.mem_cons_self u0 tl)))

theorem naked_twins_box_skip {w : Values} {x : Nat} (h : 2 < (w.getD x []).length) :
    naked_twins_box w x = w := by
  unfold naked_twins_box
  dsimp only
  rw [if_pos h]

theorem naked_twins_box_run {w : Values} {x : Nat} (h : ¬ 2 < (w.getD x []).length) :
    naked_twins_box w x = (unit_peers x).foldl (nt_unit_step (w.getD x [])) w := by
  unfold naked_twins_box
  dsimp only
  rw [if_neg h]

theorem naked_twins_pre_fold {v : Values} :
    ∀ (l : List Nat), (∀ x ∈ l, 2 < (v.getD x []).length) →
      l.foldl naked_twins_box v = v := by
  intro l
  induction l with
  | nil => intro _; rfl
  | cons a tl ih =>
    intro h
    rw [List.foldl_cons, naked_twins_box_skip (h a (List.mem_cons_self a tl))]
    exact ih (fun x hx => h x (List.mem_cons_of_mem a hx))

theorem sorted_unsolved_boxes (v : Values) : (unsolved_boxes v).Sorted (· < ·) :=
  (List.sorted_lt_range _).filter _

/-- C3 (amended): the naked-twins rule, restricted to the configuration the
code actually honours.  Let `b` be a box holding exactly two candidates such
that every box before it holds a different number of candidates than two (so
nothing acts before `b`), and let `p` be the *only* cell among all of `b`'s
unit peers holding the identical candidate string.  Then for every unit `u` of
`b` containing `p`, the output of `naked_twins` contains neither twin candidate
in any cell of `u` other than `p`.  (The unamended claim — for *every* twin
pair — fails: eliminations by earlier twin pairs can strip a twin before its
own pair is processed; see the counterexample.) -/
theorem C3_naked_twins_amended (v : Values) (b p : Nat) (u : List Nat)
    (hmem : b ∈ unsolved_boxes v)
    (hfirst : ∀ x ∈ unsolved_boxes v, x < b → 2 < (v.getD x []).length)
    (hlen2 : (v.getD b []).length = 2)
    (hu : u ∈ unit_peers b) (hp : p ∈ u)
    (hpv : v.getD p [] = v.getD b [])
    (huniq : ∀ u' ∈ unit_peers b, ∀ q ∈ u', v.getD q [] = v.getD b [] → q = p) :
    ∀ z ∈ u, z ≠ p → ∀ c ∈ v.getD b [], c ∉ (naked_twins v).getD z [] := by
  intro z hz hzp c hc
  have hne : v.getD b [] ≠ [] := by
    intro h
    rw [h] at hlen2
    exact absurd hlen2 (by simp)
  have hP : TwinInv b p (v.getD b []) v :=
    ⟨hpv, fun u' hu' q hq hqp heq => hqp (huniq u' hu' q hq heq)⟩
  obtain ⟨lpre, lpost, hsplit⟩ := List.append_of_mem hmem
  have hsorted := sorted_unsolved_boxes v
  rw [hsplit] at hsorted
  have hpre_lt : ∀ x ∈ lpre, x < b := by
    intro x hx
    exact (List.pairwise_append.mp hsorted).2.2 x hx b (List.mem_cons_self b lpost)
  have hpre_skip : ∀ x ∈ lpre, 2 < (v.getD x []).length := by
    intro x hx
    exact hfirst x (hsplit ▸ List.mem_append_left _ hx) (hpre_lt x hx)
  unfold naked_twins
  rw [hsplit, List.foldl_append, naked_twins_pre_fold lpre hpre_skip, List.foldl_cons,
    naked_twins_box_run (by omega)]
  obtain ⟨upre, upost, husplit⟩ := List.append_of_mem hu
  rw [husplit, List.foldl_append, List.foldl_cons]
  have hPafter : TwinInv b p (v.getD b []) (upre.foldl (nt_unit_step (v.getD b [])) v) :=
    twininv_after_units_fold hne upre v
      (fun x hx => husplit ▸ List.mem_append_left _ hx) hP
  have habs : c ∉ ((nt_unit_step (v.getD b [])
      (upre.foldl (nt_unit_step (v.getD b [])) v) u).getD z []) := by
    unfold nt_unit_step
    exact unit_scan_absent hne hu hz hzp hc u _ (fun _ hx => hx) hPafter hp
  refine absent_of_shrinks ?_ habs
  exact shrinks_trans
    (shrinks_foldl shrinks_naked_twins_box lpost _)
    (shrinks_foldl (shrinks_nt_unit_step _) upost _)

/-- Counterexample to C3 as stated: in state `c3cex` the boxes `I5` (index 76)
and `I6` (index 77) form an identical two-candidate pair `"47"` in the row-I
unit, yet after `naked_twins` the cell `I1` (index 72) of that unit still
holds `'4'` — the earlier `A5`/`B5` twin pair stripped `I5` to `"7"` before
`I5` was processed, so the `I5`/`I6` pair never fired. -/
theorem C3_naked_twins_cex :
    76 ∈ unsolved_boxes c3cex ∧
    (c3cex.getD 76 []).length = 2 ∧
    c3cex.getD 77 [] = c3cex.getD 76 [] ∧
    [72, 73, 74, 75, 77, 78, 79, 80] ∈ unit_peers 76 ∧
    77 ∈ [72, 73, 74, 75, 77, 78, 79, 80] ∧
    72 ∈ [72, 73, 74, 75, 77, 78, 79, 80] ∧ (72 : Nat) ≠ 77 ∧
    '4' ∈ c3cex.getD 76 [] ∧
    '4' ∈ (naked_twins c3cex).getD 72 [] := by decide!

/-- Closed witness for the amended C3: in the state with the single twin pair
`A1`/`A2` holding `"12"`, processing removes both candidates from `A3`. -/
theorem C3_naked_twins_amended_witness : '1' ∉ (naked_twins c3w).getD 2 [] :=
  C3_naked_twins_amended c3w 0 1 [1, 2, 3, 4, 5, 6, 7, 8]
    (by decide!) (by decide!) (by decide!) (by decide!) (by decide!) (by decide!)
    (by decide!) 2 (by decide!) (by decide!) '1' (by decide!)

/-- Counterexample to C6 as stated: `reduce_puzzle` stalls on `c6s0` with the
(not fully solved) result `c6s1`, because the final round's `naked_twins`
changed candidate sets without changing the solved-box list; re-running
`reduce_puzzle` on `c6s1` does not return `c6s1` — the stranded `G2`/`G3`
twin pair fires on the second run. -/
theorem C6_idempotence_cex :
    reduce_puzzle c6s0 = some c6s1 ∧ solved_count c6s1 ≠ 81 ∧
    reduce_puzzle c6s1 ≠ some c6s1 := by
  have h0 : reduce_puzzle c6s0 = some c6s1 := by
    show reduce_loop 82 (solved_boxes c6s0) c6s0 = some c6s1
    rw [c6sbA0]
    exact reduce_loop_stalled 81 [] c6s0 c6s0 c6s0 c6s1
      c6elim0 c6ckA0 c6oc0 c6ckA0 c6nt0 c6ck0 c6inv0 c6sb0
  have h1 : reduce_puzzle c6s1 = some c6s2 := by
    show reduce_loop 82 (solved_boxes c6s1) c6s1 = some c6s2
    rw [c6sbA1]
    exact reduce_loop_stalled 81 [] c6s1 c6s1 c6s1 c6s2
      c6elim1 c6ckA1 c6oc1 c6ckA1 c6nt1 c6ck1 c6inv1 c6sb1
  refine ⟨h0, by decide!, ?_⟩
  rw [h1]
  intro hcon
  exact absurd (Option.some.inj hcon) (by decide!)

theorem solve_complete (grid : List Char) (v w : Values)
    (hp : grid_values grid = v) (hr : reduce_puzzle v = some w)
    (hc : check_complete w = (true, some w)) : solve grid = some w := by
  unfold solve
  rw [hp, hr]
  simp only [hc]
  simp

theorem c9_solve : solve diagGrid = some c9e11 :=
  solve_complete diagGrid c9s0 c9e11 c9_parse c9_reduce c9ck_e11

/-- C9 (functional correctness): the end-to-end diagonal scenario.  Solving the
given diagonal grid string returns a state whose serialization is exactly the
expected 81-digit solution string. -/
theorem C9_solve_diagonal_scenario :
    (solve diagGrid).map values_grid = some expectedSol := by
  rw [c9_solve, Option.map_some', c9_serialize]

end Sudoku
